import Mathlib

/-!
Verification development for the `yesg` repository (a Yahoo ESG data client).

The embedding translates `yesg/main.py` (class `YahooESGClient`) and
`yesg/__init__.py` (module-level delegation) into Lean:

* The HTTP transport is modelled by an `Env` record of response oracles,
  indexed by how many requests of each kind have been issued so far
  (the code issues requests to three endpoint families: the cookie
  bootstrap endpoint, the crumb endpoint, and the data endpoints).
* The mutable client object (`self.session`, `self._cookie`, `self._crumb`)
  becomes an explicit `ClientState`; every operation threads a `St` record
  which additionally carries the per-kind request counters and a trace of
  observable events (requests issued, backoff sleeps, reauth invocations).
* Python exceptions become `Except Err`; as in Python, mutations performed
  before an exception persist, so every operation returns the final state
  together with the outcome (`EResult`).
* JSON values (`r.json()` / `json.loads(r.text)`) are modelled by an
  inductive `Json`; JSON parsing itself is out of scope (the spec treats it
  as an external collaborator) — responses carry their parsed body.
* `random.uniform` and `time.sleep` in `_sleep_backoff`: the operational
  model records a sleep event (wall-clock time is out of scope), and the
  numeric delay formula is modelled separately by `_sleep_backoff_delay`,
  parameterised by the value drawn by `random.uniform`.
-/

/-- JSON values, the shape of parsed upstream response bodies.
Numbers are rationals (Python distinguishes int and float; an integral
rational models a JSON integer). -/
inductive Json where
  | null : Json
  | bool : Bool → Json
  | num : ℚ → Json
  | str : String → Json
  | arr : List Json → Json
  | obj : List (String × Json) → Json
deriving Repr

/-- Lookup in a JSON object association list (Python `dict` indexing /
`in` tests; first binding wins, as dict construction keeps one binding). -/
def jLookup (kvs : List (String × Json)) (k : String) : Option Json :=
  kvs.lookup k

/-- Python `d[k]` on an arbitrary value: `some` only when the value is a
dict that has the key (otherwise Python raises KeyError/TypeError). -/
def jGet : Json → String → Option Json
  | .obj kvs, k => jLookup kvs k
  | _, _ => none

/-- Python `x[i]` with a nonnegative integer index on an arbitrary value:
`some` only when the value is a list long enough. -/
def jIdx : Json → ℕ → Option Json
  | .arr xs, i => xs.get? i
  | _, _ => none

/-- Python truthiness of a JSON value (`if data.get(key):`). -/
def jsonTruthy : Json → Bool
  | .null => false
  | .bool b => b
  | .num q => if q = 0 then false else true
  | .str s => if s = "" then false else true
  | .arr xs => !xs.isEmpty
  | .obj kvs => !kvs.isEmpty

/-- Python truthiness of an `Optional[str]` (`if self._cookie:` treats both
`None` and the empty string as false). -/
def truthyOpt : Option String → Bool
  | none => false
  | some s => if s = "" then false else true

/-- Python substring test (`needle in hay`). -/
def strContains (hay needle : String) : Bool :=
  decide (List.IsInfix needle.toList hay.toList)

/-- Python `str.strip()`: drop leading and trailing whitespace
characters. -/
def pyStrip (s : String) : String :=
  String.mk (((s.toList.dropWhile Char.isWhitespace).reverse.dropWhile Char.isWhitespace).reverse)

/-- Query parameter sets: Python dicts with insertion order
(`dict(params or {})`). -/
abbrev Params := List (String × String)

/-- Python `p[k] = v` / `p.update({k: v})`: replace in place if the key is
present, otherwise append. -/
def dictUpdate (p : Params) (k v : String) : Params :=
  if p.any (fun kv => kv.1 = k) then
    p.map (fun kv => if kv.1 = k then (k, v) else kv)
  else p ++ [(k, v)]

/-- Python `p.setdefault(k, v)`: insert only when the key is absent. -/
def dictSetdefault (p : Params) (k v : String) : Params :=
  if p.any (fun kv => kv.1 = k) then p else p ++ [(k, v)]

/-- An HTTP response as the client observes it: status code, body text,
the `A1` cookie of the response cookie jar (if any), and the parsed JSON
body (used by the data endpoints; parsing is an external collaborator). -/
structure Response where
  status : ℕ
  text : String := ""
  cookieA1 : Option String := none
  jsonBody : Json := .null
deriving Repr

/-- The upstream environment: oracles giving the response to the n-th
request of each kind, and the `A1` value visible in the transport session
cookie jar after the n-th bootstrap request (the jar may hold an `A1`
delivered on a redirect hop even when the final response jar does not). -/
structure Env where
  cookieResp : ℕ → Response
  sessionA1 : ℕ → Option String
  crumbResp : ℕ → Response
  dataResp : ℕ → Response

/-- Tunables of `YahooESGClient` (dataclass fields), with the source
defaults. `impersonate`/`timeout` only parameterise the transport and are
not modelled. -/
structure Config where
  max_retries : ℕ := 4
  backoff_base : ℚ := 4/5
  backoff_cap : ℚ := 8
  jitter_frac : ℚ := 1/4
deriving Repr, DecidableEq

/-- The mutable fields of a `YahooESGClient` object: the transport
generation (`self.session`, bumped when the session is recreated) and the
two cached credentials. -/
structure ClientState where
  sessionGen : ℕ := 0
  _cookie : Option String := none
  _crumb : Option String := none
deriving Repr, DecidableEq

/-- Observable events of a run: outbound requests (with the `Cookie`
header value and, for data requests, the effective query parameters),
backoff sleeps (with the 0-based attempt index), and `_reauth` entries. -/
inductive Event where
  | cookieReq : Event
  | crumbReq : String → Event
  | dataReq : Params → String → Event
  | sleep : ℕ → Event
  | reauth : Bool → Event
deriving Repr, DecidableEq

/-- Full execution state: the client object plus instrumentation (request
counters feeding the environment oracles, and the event trace). -/
structure St where
  cli : ClientState := {}
  nCookie : ℕ := 0
  nCrumb : ℕ := 0
  nData : ℕ := 0
  trace : List Event := []
deriving Repr, DecidableEq

/-- Error taxonomy. The code raises `RuntimeError` with distinct messages
for the auth and data failures and `requests.HTTPError` from
`raise_for_status`; the constructors keep those outcomes distinguishable
(spec names: `AuthError`, `HttpError`, `DataError`).  `attributeError`,
`typeError` and `keyError` model the Python exceptions escaping the
record-extraction code on oddly-shaped payloads. -/
inductive Err where
  | authCookie : Err
  | authCrumbEmpty : Err
  | httpError : ℕ → Err
  | dataError : String → Err
  | attributeError : Err
  | typeError : Err
  | keyError : Err
deriving Repr, DecidableEq

/-- Outcome of an operation: result or exception, plus the final state
(Python mutations persist even when an exception propagates). -/
abbrev EResult (α : Type) := Except Err α × St

/-- `requests.Response.raise_for_status` raises exactly for 4xx/5xx. -/
def raiseForStatusFails (status : ℕ) : Bool :=
  decide (400 ≤ status) && decide (status < 600)

/-- The `A1` value `_ensure_cookie` sees:
`r.cookies.get("A1") or self.session.cookies.get("A1")` (Python `or`
skips a falsy first operand). -/
def bootA1 (env : Env) (n : ℕ) : Option String :=
  if truthyOpt (env.cookieResp n).cookieA1 then (env.cookieResp n).cookieA1
  else env.sessionA1 n

/-- `YahooESGClient._ensure_cookie`: return the cached cookie if truthy;
otherwise issue the bootstrap request, take the `A1` from the response jar
falling back to the session jar, cache `"A1=" + a1`, or raise
(`RuntimeError("Failed to obtain Yahoo A1 cookie")`, the spec AuthError)
when the value is falsy. -/
def _ensure_cookie (env : Env) (s : St) : EResult String :=
  if truthyOpt s.cli._cookie then (.ok (s.cli._cookie.getD ""), s)
  else
    let a1 := bootA1 env s.nCookie
    let s := { s with nCookie := s.nCookie + 1, trace := s.trace ++ [.cookieReq] }
    if truthyOpt a1 then
      let c := "A1=" ++ a1.getD ""
      (.ok c, { s with cli := { s.cli with _cookie := some c } })
    else (.error .authCookie, s)

/-- `YahooESGClient._default_headers`: all headers are constant except the
`Cookie` header, which forces `_ensure_cookie`; the model keeps just the
cookie value. -/
def _default_headers (env : Env) (s : St) : EResult String :=
  _ensure_cookie env s

/-- `YahooESGClient._ensure_crumb`: return the cached crumb if truthy;
otherwise build default headers (forcing the cookie), issue the crumb
request, `raise_for_status`, assign the stripped body to `self._crumb`
and then raise (`RuntimeError("Failed to obtain Yahoo crumb")`) if it is
empty.  Note the assignment happens before the emptiness check, as in the
source. -/
def _ensure_crumb (env : Env) (s : St) : EResult String :=
  if truthyOpt s.cli._crumb then (.ok (s.cli._crumb.getD ""), s)
  else
    match _default_headers env s with
    | (.error e, s) => (.error e, s)
    | (.ok cookie, s) =>
      let r := env.crumbResp s.nCrumb
      let s := { s with nCrumb := s.nCrumb + 1, trace := s.trace ++ [.crumbReq cookie] }
      if raiseForStatusFails r.status then (.error (.httpError r.status), s)
      else
        let c := pyStrip r.text
        let s := { s with cli := { s.cli with _crumb := some c } }
        if c = "" then (.error .authCrumbEmpty, s)
        else (.ok c, s)

/-- `YahooESGClient._reauth`: recreate the transport when `reset_session`
(after `self.session.close()`, which has no observable effect here),
clear both cached credentials, then reacquire cookie and crumb in order. -/
def _reauth (env : Env) (reset_session : Bool) (s : St) : EResult Unit :=
  let s := { s with trace := s.trace ++ [Event.reauth reset_session] }
  let s := if reset_session then
      { s with cli := { s.cli with sessionGen := s.cli.sessionGen + 1 } }
    else s
  let s := { s with cli := { s.cli with _cookie := none, _crumb := none } }
  match _ensure_cookie env s with
  | (.error e, s) => (.error e, s)
  | (.ok _, s) =>
    match _ensure_crumb env s with
    | (.error e, s) => (.error e, s)
    | (.ok _, s) => (.ok (), s)

/-- The numeric value of the delay computed by
`YahooESGClient._sleep_backoff` for 0-based attempt index `attempt`,
where `u` is the value returned by `random.uniform(-jitter, jitter)`
(with `jitter = min(cap, base * 2 ** attempt) * jitter_frac`):
`max(0.0, base + u)` with the exponential `base` clamped to the cap. -/
def _sleep_backoff_delay (cfg : Config) (attempt : ℕ) (u : ℚ) : ℚ :=
  max 0 (min cfg.backoff_cap (cfg.backoff_base * 2 ^ attempt) + u)

/-- Operational effect of `_sleep_backoff` in the model: record the sleep
(the blocked wall-clock time is out of scope). -/
def _sleep_backoff_ev (attempt : ℕ) (s : St) : St :=
  { s with trace := s.trace ++ [.sleep attempt] }

/-- Body text heuristic `_crumb_invalid` inside `_request`:
lowercased body contains both "crumb" and "invalid", or contains
"unauthoriz". -/
def _crumb_invalid (r : Response) : Bool :=
  let body := r.text.toLower
  (strContains body "crumb" && strContains body "invalid") ||
    strContains body "unauthoriz"

/-- The auth-failure classification of `_request`:
status 401 or 403, or status 400 with the `_crumb_invalid` heuristic. -/
def isAuthFailure (r : Response) : Bool :=
  (r.status == 401 || r.status == 403) || (r.status == 400 && _crumb_invalid r)

/-- The transient classification of `_request`: 429 or any 5xx. -/
def isTransient (status : ℕ) : Bool :=
  status == 429 || (decide (500 ≤ status) && decide (status < 600))

/-- The closure `_do` inside `_request`: copy the caller params, apply the
override dict if given (Python `p.update`), and if `need_crumb` force the
crumb and `p.setdefault("crumb", self._crumb)`; then issue the request
with the current `headers`. -/
def _do (env : Env) (headers : String) (need_crumb : Bool) (params : Params)
    (params_override : Option Params) (s : St) : EResult Response :=
  let p := params
  let p := match params_override with
    | some ov => ov.foldl (fun acc kv => dictUpdate acc kv.1 kv.2) p
    | none => p
  if need_crumb then
    match _ensure_crumb env s with
    | (.error e, s) => (.error e, s)
    | (.ok _, s) =>
      let p := dictSetdefault p "crumb" (s.cli._crumb.getD "")
      let r := env.dataResp s.nData
      let s := { s with nData := s.nData + 1, trace := s.trace ++ [.dataReq p headers] }
      (.ok r, s)
  else
    let r := env.dataResp s.nData
    let s := { s with nData := s.nData + 1, trace := s.trace ++ [.dataReq p headers] }
    (.ok r, s)

/-- The `while` loop of `_request` (`(429 or 5xx) and attempt < max_retries`),
with `fuel = max_retries - attempt` so the attempt bound is the fuel:
sleep, bump the attempt counter, reissue via `_do()` with no override. -/
def retryLoop (env : Env) (headers : String) (need_crumb : Bool) (params : Params) :
    ℕ → ℕ → Response → St → EResult Response
  | 0, _, resp, s => (.ok resp, s)
  | fuel + 1, attempt, resp, s =>
    if isTransient resp.status then
      let s := _sleep_backoff_ev attempt s
      match _do env headers need_crumb params none s with
      | (.error e, s) => (.error e, s)
      | (.ok resp', s) => retryLoop env headers need_crumb params fuel (attempt + 1) resp' s
    else (.ok resp, s)

/-- Tail of `_request` after the one-time reauth check: the backoff loop
followed by `resp.raise_for_status()`. -/
def finishRequest (cfg : Config) (env : Env) (headers : String) (need_crumb : Bool)
    (params : Params) (resp : Response) (s : St) : EResult Response :=
  match retryLoop env headers need_crumb params cfg.max_retries 0 resp s with
  | (.error e, s) => (.error e, s)
  | (.ok resp, s) =>
    if raiseForStatusFails resp.status then (.error (.httpError resp.status), s)
    else (.ok resp, s)

/-- `_request` after the first `_do()`: classify the response; on an auth
failure run `_reauth(reset_session=True)`, rebuild the headers, and
reissue once passing `{"crumb": self._crumb}` as the override when
`need_crumb` (note `p.update` semantics for the override); then the
backoff loop.  After a reauth the rebuilt headers are also the ones the
backoff loop uses (the Python closure reads the rebound `headers`). -/
def requestAfterFirst (cfg : Config) (env : Env) (need_crumb : Bool) (params : Params)
    (headers : String) (resp : Response) (s : St) : EResult Response :=
  if isAuthFailure resp then
    match _reauth env true s with
    | (.error e, s) => (.error e, s)
    | (.ok _, s) =>
      match _default_headers env s with
      | (.error e, s) => (.error e, s)
      | (.ok headers', s) =>
        match _do env headers' need_crumb params
            (if need_crumb then some [("crumb", s.cli._crumb.getD "")] else none) s with
        | (.error e, s) => (.error e, s)
        | (.ok resp', s) => finishRequest cfg env headers' need_crumb params resp' s
  else finishRequest cfg env headers need_crumb params resp s

/-- `YahooESGClient._request`: build headers if the caller gave none,
issue the first attempt, then the one-time reauth path and the backoff
loop, and finally `raise_for_status`. -/
def _request (cfg : Config) (env : Env) (need_crumb : Bool) (params : Params)
    (headersArg : Option String) (s : St) : EResult Response :=
  match (match headersArg with
         | none => _default_headers env s
         | some h => ((.ok h : Except Err String), s)) with
  | (.error e, s) => (.error e, s)
  | (.ok headers, s) =>
    match _do env headers need_crumb params none s with
    | (.error e, s) => (.error e, s)
    | (.ok resp, s) => requestAfterFirst cfg env need_crumb params headers resp s

/-- `calendar.month_abbr` as Python sees it: index 0 is the empty string. -/
def month_abbr : List String :=
  ["", "Jan", "Feb", "Mar", "Apr", "May", "Jun",
   "Jul", "Aug", "Sep", "Oct", "Nov", "Dec"]

/-- Python list indexing `l[j]` with a JSON value as index: integers
(including negative ones) and booleans index; anything else raises
(TypeError / IndexError), modelled as `none`.  A non-integral rational
models a JSON float, which Python rejects as an index. -/
def pyIndex (l : List String) (j : Json) : Option String :=
  match j with
  | .num q =>
    if q.den = 1 then
      if 0 ≤ q.num ∧ q.num < (l.length : ℤ) then l.get? q.num.toNat
      else if -(l.length : ℤ) ≤ q.num ∧ q.num < 0 then l.get? (l.length - (-q.num).toNat)
      else none
    else none
  | .bool b => l.get? (if b then 1 else 0)
  | _ => none

/-- Python `str()` of a JSON scalar, as used in the `Last Rated` fallback
(`str(data.get("ratingYear", "-"))`) and the f-string.  Container
rendering is abbreviated: the claims under verification never depend on
it. -/
def pyStr : Json → String
  | .null => "None"
  | .bool b => if b then "True" else "False"
  | .num q => if q.den = 1 then toString q.num else toString q
  | .str s => s
  | .arr _ => "[list]"
  | .obj _ => "[dict]"

/-- The `Last Rated` computation shared by `get_esg_short` and
`get_esg_full`: placeholder unless `ratingYear` is present; then
`f"{month_abbr[ratingMonth]} {ratingYear}"`, falling back to
`str(data.get("ratingYear", "-"))` when the month indexing raises. -/
def lastRatedOf (kvs : List (String × Json)) : String :=
  if (jLookup kvs "ratingYear").isSome then
    match pyIndex month_abbr ((jLookup kvs "ratingMonth").getD .null) with
    | some m => m ++ " " ++ pyStr ((jLookup kvs "ratingYear").getD .null)
    | none => pyStr ((jLookup kvs "ratingYear").getD (.str "-"))
  else "-"

/-- Python `v.get("fmt", "-")` on an arbitrary value: only dicts have
`.get`; any other shape raises AttributeError. -/
def pyGetFmt (v : Json) : Except Err Json :=
  match v with
  | .obj kvs => .ok ((jLookup kvs "fmt").getD (.str "-"))
  | _ => .error .attributeError

/-- A score field of `get_esg_short`:
`data.get(key, {}).get("fmt", "-")`. -/
def shortScore (kvs : List (String × Json)) (key : String) : Except Err Json :=
  pyGetFmt ((jLookup kvs key).getD (.obj []))

/-- The helper `g` of `get_esg_full` on an already-split path: walk the
path, returning the default as soon as the current value is not a dict or
lacks the key. -/
def gPath : Json → List String → Json → Json
  | cur, [], _ => cur
  | cur, k :: rest, dflt =>
    match cur with
    | .obj kvs =>
      match jLookup kvs k with
      | some v => gPath v rest dflt
      | none => dflt
    | _ => dflt

/-- Python `str.split(sep)` for a one-character separator, on the
underlying character list (`acc` holds the current fragment reversed). -/
def pySplitAux (sep : Char) : List Char → List Char → List (List Char)
  | [], acc => [acc.reverse]
  | c :: rest, acc =>
    if c = sep then acc.reverse :: pySplitAux sep rest []
    else pySplitAux sep rest (c :: acc)

/-- Python `path.split(".")` (as used by the helper `g`). -/
def pySplit (s : String) (sep : Char) : List String :=
  (pySplitAux sep s.toList []).map (fun cs => String.mk cs)

/-- The helper `g(path, default="-")` of `get_esg_full` (dotted-path safe
lookup over `path.split(".")`). -/
def g (data : Json) (path : String) (dflt : Json) : Json :=
  gPath data (pySplit path '.') dflt

/-- Python `",".join(xs)`: every element must be a string, otherwise
TypeError. -/
def pyJoinStrs (sep : String) (xs : List Json) : Except Err String :=
  match xs.mapM (fun j => match j with | .str s => some s | _ => none) with
  | some ss => .ok (String.intercalate sep ss)
  | none => .error .typeError

/-- The `relatedControversy` field of `get_esg_full`:
join if the (defaulted-to-`[]`) value is a list, else the value with
default `"-"`. -/
def relatedControversyOf (data : Json) : Except Err Json :=
  match g data "relatedControversy" (.arr []) with
  | .arr xs => (pyJoinStrs "," xs).map .str
  | _ => .ok (g data "relatedControversy" (.str "-"))

/-- The controversial-business-area flags of `get_esg_full`
(key, human-readable label). -/
def flags : List (String × String) :=
  [("adult", "Adult Entertainment"),
   ("alcoholic", "Alcoholic Beverages"),
   ("animalTesting", "Animal Testing"),
   ("catholic", "Catholic Values"),
   ("controversialWeapons", "Controversial Weapons"),
   ("smallArms", "Small Arms"),
   ("furLeather", "Fur and Specialty Leather"),
   ("gambling", "Gambling"),
   ("gmo", "GMO"),
   ("militaryContract", "Military Contracting"),
   ("nuclear", "Nuclear"),
   ("pesticides", "Pesticides"),
   ("palmOil", "Palm Oil"),
   ("coal", "Thermal Coal"),
   ("tobacco", "Tobacco Products")]

/-- `", ".join(name for key, name in flags if data.get(key)) or "-"`. -/
def controversialAreasOf (kvs : List (String × Json)) : String :=
  let names := (flags.filter (fun kn => jsonTruthy ((jLookup kvs kn.1).getD .null))).map (fun kn => kn.2)
  let joined := String.intercalate ", " names
  if joined = "" then "-" else joined

/-- The single row returned by `get_esg_short` (a one-row DataFrame in the
source; field values are the raw JSON values placed in the table). -/
structure ShortRow where
  ticker : String
  totalScore : Json
  eScore : Json
  sScore : Json
  gScore : Json
  lastRated : String
deriving Repr

/-- The row construction of `get_esg_short` from the `esgScores` dict
(lines 152-175 of `main.py`); each `.get(...).get(...)` chain can raise
AttributeError, in source order. -/
def esg_short_row (ticker : String) (kvs : List (String × Json)) : Except Err ShortRow := do
  let t ← shortScore kvs "totalEsg"
  let e ← shortScore kvs "environmentScore"
  let so ← shortScore kvs "socialScore"
  let go ← shortScore kvs "governanceScore"
  pure { ticker := ticker, totalScore := t, eScore := e, sScore := so, gScore := go,
         lastRated := lastRatedOf kvs }

/-- `get_esg_short` applied to the extracted `esgScores` value
(`data.get` requires a dict; any other shape raises AttributeError). -/
def esg_short_of_data (ticker : String) (data : Json) : Except Err ShortRow :=
  match data with
  | .obj kvs => esg_short_row ticker kvs
  | _ => .error .attributeError

/-- The single row returned by `get_esg_full`. -/
structure FullRow where
  ticker : String
  totalScore : Json
  eScore : Json
  sScore : Json
  gScore : Json
  lastRated : String
  esgPerformance : Json
  peerGroup : Json
  highestControversy : Json
  peerCount : Json
  totalPercentile : Json
  environmentPercentile : Json
  socialPercentile : Json
  governancePercentile : Json
  relatedControversy : Json
  minPeerEsg : Json
  avgPeerEsg : Json
  maxPeerEsg : Json
  minPeerEnvironment : Json
  avgPeerEnvironment : Json
  maxPeerEnvironment : Json
  minPeerSocial : Json
  avgPeerSocial : Json
  maxPeerSocial : Json
  minPeerGovernance : Json
  avgPeerGovernance : Json
  maxPeerGovernance : Json
  minHighestControversy : Json
  avgHighestControversy : Json
  maxHighestControversy : Json
  controversialAreas : String
deriving Repr

/-- The row construction of `get_esg_full` (lines 188-259 of `main.py`):
all fields go through the safe lookup `g`, except `relatedControversy`
whose join can raise TypeError. -/
def esg_full_row (ticker : String) (kvs : List (String × Json)) : Except Err FullRow := do
  let data := Json.obj kvs
  let rc ← relatedControversyOf data
  pure { ticker := ticker,
         totalScore := g data "totalEsg.fmt" (.str "-"),
         eScore := g data "environmentScore.fmt" (.str "-"),
         sScore := g data "socialScore.fmt" (.str "-"),
         gScore := g data "governanceScore.fmt" (.str "-"),
         lastRated := lastRatedOf kvs,
         esgPerformance := g data "esgPerformance" (.str "-"),
         peerGroup := g data "peerGroup" (.str "-"),
         highestControversy := g data "highestControversy" (.str "-"),
         peerCount := g data "peerCount" (.str "-"),
         totalPercentile := g data "percentile.raw" (.str "-"),
         environmentPercentile := g data "environmentPercentile" (.str "-"),
         socialPercentile := g data "socialPercentile" (.str "-"),
         governancePercentile := g data "governancePercentile" (.str "-"),
         relatedControversy := rc,
         minPeerEsg := g data "peerEsgScorePerformance.min" (.str "-"),
         avgPeerEsg := g data "peerEsgScorePerformance.avg" (.str "-"),
         maxPeerEsg := g data "peerEsgScorePerformance.max" (.str "-"),
         minPeerEnvironment := g data "peerEnvironmentPerformance.min" (.str "-"),
         avgPeerEnvironment := g data "peerEnvironmentPerformance.avg" (.str "-"),
         maxPeerEnvironment := g data "peerEnvironmentPerformance.max" (.str "-"),
         minPeerSocial := g data "peerSocialPerformance.min" (.str "-"),
         avgPeerSocial := g data "peerSocialPerformance.avg" (.str "-"),
         maxPeerSocial := g data "peerSocialPerformance.max" (.str "-"),
         minPeerGovernance := g data "peerGovernancePerformance.min" (.str "-"),
         avgPeerGovernance := g data "peerGovernancePerformance.avg" (.str "-"),
         maxPeerGovernance := g data "peerGovernancePerformance.max" (.str "-"),
         minHighestControversy := g data "peerHighestControversyPerformance.min" (.str "-"),
         avgHighestControversy := g data "peerHighestControversyPerformance.avg" (.str "-"),
         maxHighestControversy := g data "peerHighestControversyPerformance.max" (.str "-"),
         controversialAreas := controversialAreasOf kvs }

/-- `get_esg_full` applied to the extracted `esgScores` value. -/
def esg_full_of_data (ticker : String) (data : Json) : Except Err FullRow :=
  match data with
  | .obj kvs => esg_full_row ticker kvs
  | _ => .error .attributeError

/-- `data["quoteSummary"]["result"][0]["esgScores"]`; any failure along
the chain is the `except Exception` of `_fetch_quote_summary_esg`. -/
def extractEsgScores (js : Json) : Option Json :=
  ((((jGet js "quoteSummary").bind (fun v => jGet v "result")).bind
      (fun v => jIdx v 0)).bind (fun v => jGet v "esgScores"))

/-- `js["esgChart"]["result"][0]["symbolSeries"]`; any failure along the
chain is the `except Exception` of `get_historic_esg`. -/
def extractSymbolSeries (js : Json) : Option Json :=
  ((((jGet js "esgChart").bind (fun v => jGet v "result")).bind
      (fun v => jIdx v 0)).bind (fun v => jGet v "symbolSeries"))

/-- One date-indexed row of the `get_historic_esg` result: the raw
`timestamp` (epoch seconds, which `pd.to_datetime(..., unit="s")` maps
injectively to a date) and the four renamed score columns. -/
structure HistRow where
  date : Json
  totalScore : Json
  eScore : Json
  sScore : Json
  gScore : Json
deriving Repr

/-- Decoding of one `symbolSeries` entry into a row.  The DataFrame
construction and column selection of the source are external pandas
collaborators; they are modelled for uniformly-keyed entries, and an
entry without the selected columns is modelled as the KeyError pandas
raises when a selected column is absent (a parse error, not the
`DataError` of the missing-series path). -/
def decodeSeriesEntry (j : Json) : Except Err HistRow :=
  match j with
  | .obj kvs =>
    match jLookup kvs "timestamp", jLookup kvs "esgScore", jLookup kvs "environmentScore",
        jLookup kvs "socialScore", jLookup kvs "governanceScore" with
    | some ts, some t, some e, some so, some go =>
      .ok { date := ts, totalScore := t, eScore := e, sScore := so, gScore := go }
    | _, _, _, _, _ => .error .keyError
  | _ => .error .typeError

/-- Decoding of the whole `symbolSeries` value. -/
def decodeSeries (j : Json) : Except Err (List HistRow) :=
  match j with
  | .arr xs => xs.mapM decodeSeriesEntry
  | _ => .error .typeError

/-- The payload handling of `get_historic_esg` (after `_request`):
missing nested series is the `RuntimeError("No ESG history found ...")`
of the source (the spec DataError); a present series is converted to
date-indexed renamed rows. -/
def get_historic_payload (ticker : String) (js : Json) : Except Err (List HistRow) :=
  match extractSymbolSeries js with
  | none => .error (.dataError ("No ESG history found for ticker " ++ ticker))
  | some series => decodeSeries series

/-- `YahooESGClient._fetch_quote_summary_esg`: headers built eagerly at
the call site, `_request` with `need_crumb=True` and
`params={"modules": "esgScores"}`, then the nested extraction with its
`RuntimeError("No ESG scores available ...")` (the spec DataError). -/
def _fetch_quote_summary_esg (cfg : Config) (env : Env) (ticker : String) (s : St) :
    EResult Json :=
  match _default_headers env s with
  | (.error e, s) => (.error e, s)
  | (.ok h, s) =>
    match _request cfg env true [("modules", "esgScores")] (some h) s with
    | (.error e, s) => (.error e, s)
    | (.ok r, s) =>
      match extractEsgScores r.jsonBody with
      | none => (.error (.dataError ("No ESG scores available for ticker " ++ ticker)), s)
      | some d => (.ok d, s)

/-- `YahooESGClient.get_esg_short`. -/
def get_esg_short (cfg : Config) (env : Env) (ticker : String) (s : St) : EResult ShortRow :=
  match _fetch_quote_summary_esg cfg env ticker s with
  | (.error e, s) => (.error e, s)
  | (.ok data, s) => (esg_short_of_data ticker data, s)

/-- `YahooESGClient.get_esg_full`. -/
def get_esg_full (cfg : Config) (env : Env) (ticker : String) (s : St) : EResult FullRow :=
  match _fetch_quote_summary_esg cfg env ticker s with
  | (.error e, s) => (.error e, s)
  | (.ok data, s) => (esg_full_of_data ticker data, s)

/-- `YahooESGClient.get_historic_esg`: headers built eagerly at the call
site, `_request` with `need_crumb=True` and `params={"symbol": ticker}`,
then the series extraction and conversion. -/
def get_historic_esg (cfg : Config) (env : Env) (ticker : String) (s : St) :
    EResult (List HistRow) :=
  match _default_headers env s with
  | (.error e, s) => (.error e, s)
  | (.ok h, s) =>
    match _request cfg env true [("symbol", ticker)] (some h) s with
    | (.error e, s) => (.error e, s)
    | (.ok r, s) => (get_historic_payload ticker r.jsonBody, s)

/-- Alias for the client method, usable inside the module namespace. -/
def clientGetEsgShort : Config → Env → String → St → EResult ShortRow := get_esg_short

/-- Alias for the client method, usable inside the module namespace. -/
def clientGetEsgFull : Config → Env → String → St → EResult FullRow := get_esg_full

/-- Alias for the client method, usable inside the module namespace. -/
def clientGetHistoricEsg : Config → Env → String → St → EResult (List HistRow) := get_historic_esg

namespace Yesg

/-- The module-global client of `yesg/__init__.py`
(`_client = YahooESGClient()`): default configuration. -/
def _client_config : Config := {}

/-- The state of the module-global client right after import
(fresh transport, no cached credentials, nothing issued yet). -/
def moduleInit : St := {}

/-- Module-level `yesg.get_esg_short`: delegates to the shared client. -/
def get_esg_short (env : Env) (ticker : String) (s : St) : EResult ShortRow :=
  clientGetEsgShort _client_config env ticker s

/-- Module-level `yesg.get_esg_full`: delegates to the shared client. -/
def get_esg_full (env : Env) (ticker : String) (s : St) : EResult FullRow :=
  clientGetEsgFull _client_config env ticker s

/-- Module-level `yesg.get_historic_esg`: delegates to the shared client. -/
def get_historic_esg (env : Env) (ticker : String) (s : St) : EResult (List HistRow) :=
  clientGetHistoricEsg _client_config env ticker s

end Yesg

/-- The events appended by the backoff loop when it runs `fuel` further
iterations starting at attempt index `attempt`, each reissuing the same
effective parameters `p` with headers `h`. -/
def retryEvents (p : Params) (h : String) : ℕ → ℕ → List Event
  | _, 0 => []
  | attempt, fuel + 1 =>
    .sleep attempt :: .dataReq p h :: retryEvents p h (attempt + 1) fuel

/-- Number of backoff sleeps recorded in a trace. -/
def countSleeps (tr : List Event) : ℕ :=
  tr.countP (fun e => match e with | .sleep _ => true | _ => false)

/-- Number of credential-acquisition requests (cookie or crumb) recorded
in a trace. -/
def countAuthReqs (tr : List Event) : ℕ :=
  tr.countP (fun e => match e with | .cookieReq => true | .crumbReq _ => true | _ => false)

/-- Number of `_reauth` invocations recorded in a trace. -/
def countReauths (tr : List Event) : ℕ :=
  tr.countP (fun e => match e with | .reauth _ => true | _ => false)

/-! Concrete fixtures used by the witness theorems. -/

/-- A plain success response. -/
def respOK : Response := { status := 200 }

/-- A rate-limit response. -/
def resp429 : Response := { status := 429 }

/-- An auth-failure response. -/
def resp403 : Response := { status := 403 }

/-- A bootstrap response carrying an `A1` cookie. -/
def goodCookieResp : Response := { status := 200, cookieA1 := some "fresha1" }

/-- A crumb response with a padded body. -/
def goodCrumbResp : Response := { status := 200, text := " freshcrumb " }

/-- A well-formed `symbolSeries` payload. -/
def histSeriesJson : Json :=
  .arr [.obj [("timestamp", .num 1600000000), ("esgScore", .num 21),
              ("environmentScore", .num 7), ("socialScore", .num 8),
              ("governanceScore", .num 6)]]

/-- An `esgChart` body containing the series. -/
def histBodyJson : Json :=
  .obj [("esgChart", .obj [("result", .arr [.obj [("symbolSeries", histSeriesJson)]])])]

/-- The rows `get_historic_esg` extracts from `histBodyJson`. -/
def histRows : List HistRow :=
  [{ date := .num 1600000000, totalScore := .num 21, eScore := .num 7,
     sScore := .num 8, gScore := .num 6 }]

/-- A data response with the history series present. -/
def respHist : Response := { status := 200, jsonBody := histBodyJson }

/-- A data response whose body lacks the expected nested series. -/
def respNoHist : Response := { status := 200, jsonBody := .obj [("esgChart", .obj [("error", .null)])] }

/-- A client state with warm (cached) credentials. -/
def stWarm : St :=
  { cli := { sessionGen := 0, _cookie := some "A1=olda1", _crumb := some "oldcrumb" } }

/-- An environment with working auth endpoints and the given data oracle. -/
def envW (d : ℕ → Response) : Env :=
  { cookieResp := fun _ => goodCookieResp, sessionA1 := fun _ => none,
    crumbResp := fun _ => goodCrumbResp, dataResp := d }

/-- Data endpoint: 429 four times, then success. -/
def envRetrySucceed : Env := envW (fun n => if n < 4 then resp429 else respOK)

/-- Data endpoint: always 429. -/
def envAll429 : Env := envW (fun _ => resp429)

/-- Data endpoint: 403 once, then success. -/
def env403Once : Env := envW (fun n => if n = 0 then resp403 else respOK)

/-- Data endpoint: 403, then 429, then success. -/
def env403Then429 : Env :=
  envW (fun n => if n = 0 then resp403 else if n = 1 then resp429 else respOK)

/-- Data endpoint: always the history payload. -/
def envHistOK : Env := envW (fun _ => respHist)

/-- Data endpoint: always the payload lacking the series. -/
def envHistMissing : Env := envW (fun _ => respNoHist)

/-- Bootstrap responses without a response-jar `A1`, but with an `A1`
visible in the session jar (e.g. set during a redirect hop). -/
def envCookieFromSession : Env :=
  { cookieResp := fun _ => { status := 200 }, sessionA1 := fun _ => some "sessa1",
    crumbResp := fun _ => goodCrumbResp, dataResp := fun _ => respOK }

/-- Bootstrap responses with no `A1` anywhere. -/
def envCookieNone : Env := { envCookieFromSession with sessionA1 := fun _ => none }

/-! Basic lemmas. -/

theorem truthyOpt_some_of_ne {c : String} (h : c ≠ "") : truthyOpt (some c) = true := by
  simp [truthyOpt, h]

theorem A1_ne_empty (a : String) : ("A1=" ++ a) ≠ "" := by
  intro h
  have hl := congrArg String.length h
  simp [String.length_append] at hl
  exact absurd hl.1 (by decide)

/-- C3 helper: the clamped exponential base is monotone in the attempt
index when the configured base is nonnegative. -/
theorem backoff_base_mono (cfg : Config) (i : ℕ) (hb : 0 ≤ cfg.backoff_base) :
    min cfg.backoff_cap (cfg.backoff_base * 2 ^ i) ≤
      min cfg.backoff_cap (cfg.backoff_base * 2 ^ (i + 1)) := by
  refine min_le_min (le_refl _) ?_
  have h2 : (2 : ℚ) ^ i ≤ 2 ^ (i + 1) := by
    exact pow_le_pow_right₀ (by norm_num : (1:ℚ) ≤ 2) (Nat.le_succ i)
  exact mul_le_mul_of_nonneg_left h2 hb

/-- C3: the delay computed by `_sleep_backoff` for 0-based attempt `i`,
with the uniform draw parameterised as `t ∈ [-1, 1]` (the factor is then
`1 + t * jitter_frac ∈ [1 - jitter_frac, 1 + jitter_frac]`), equals the
spec formula `max 0 (clamp(base * 2^i, 0, cap) * (1 + t * jitter_frac))`;
it is never negative and bounded by `cap * (1 + jitter_frac)`; for every
fixed draw `t` it is non-decreasing in `i` (hence so is its expectation
under any draw distribution shared across attempts); and the average of
the delays at the symmetric draws `t` and `-t` is exactly the clamped
base `min cap (base * 2^i)`, which is itself monotone — so the
expectation over the symmetric uniform draw equals the clamped base and
is monotonically non-decreasing in `i`. -/
theorem c3_backoff_delay (cfg : Config) (i : ℕ) (t : ℚ)
    (hb : 0 ≤ cfg.backoff_base) (hcap : 0 ≤ cfg.backoff_cap)
    (hj0 : 0 ≤ cfg.jitter_frac) (hj1 : cfg.jitter_frac ≤ 1)
    (ht0 : -1 ≤ t) (ht1 : t ≤ 1) :
    (_sleep_backoff_delay cfg i (t * (min cfg.backoff_cap (cfg.backoff_base * 2 ^ i) * cfg.jitter_frac))
        = max 0 (min cfg.backoff_cap (max 0 (cfg.backoff_base * 2 ^ i)) * (1 + t * cfg.jitter_frac)))
    ∧ 0 ≤ _sleep_backoff_delay cfg i (t * (min cfg.backoff_cap (cfg.backoff_base * 2 ^ i) * cfg.jitter_frac))
    ∧ _sleep_backoff_delay cfg i (t * (min cfg.backoff_cap (cfg.backoff_base * 2 ^ i) * cfg.jitter_frac))
        ≤ cfg.backoff_cap * (1 + cfg.jitter_frac)
    ∧ _sleep_backoff_delay cfg i (t * (min cfg.backoff_cap (cfg.backoff_base * 2 ^ i) * cfg.jitter_frac))
        ≤ _sleep_backoff_delay cfg (i + 1) (t * (min cfg.backoff_cap (cfg.backoff_base * 2 ^ (i + 1)) * cfg.jitter_frac))
    ∧ _sleep_backoff_delay cfg i (t * (min cfg.backoff_cap (cfg.backoff_base * 2 ^ i) * cfg.jitter_frac))
        + _sleep_backoff_delay cfg i (-(t * (min cfg.backoff_cap (cfg.backoff_base * 2 ^ i) * cfg.jitter_frac)))
        = 2 * min cfg.backoff_cap (cfg.backoff_base * 2 ^ i)
    ∧ min cfg.backoff_cap (cfg.backoff_base * 2 ^ i)
        ≤ min cfg.backoff_cap (cfg.backoff_base * 2 ^ (i + 1)) := by
  have hpow : (0:ℚ) ≤ cfg.backoff_base * 2 ^ i := by positivity
  have hpow' : (0:ℚ) ≤ cfg.backoff_base * 2 ^ (i + 1) := by positivity
  have hB0 : (0:ℚ) ≤ min cfg.backoff_cap (cfg.backoff_base * 2 ^ i) := le_min hcap hpow
  have hB0' : (0:ℚ) ≤ min cfg.backoff_cap (cfg.backoff_base * 2 ^ (i + 1)) := le_min hcap hpow'
  have hBmono := backoff_base_mono cfg i hb
  have hfac0 : (0:ℚ) ≤ 1 + t * cfg.jitter_frac := by nlinarith
  have hfac1 : 1 + t * cfg.jitter_frac ≤ 1 + cfg.jitter_frac := by nlinarith
  refine ⟨?_, ?_, ?_, ?_, ?_, hBmono⟩
  · unfold _sleep_backoff_delay
    rw [max_eq_right hpow]
    ring_nf
  · exact le_max_left _ _
  · unfold _sleep_backoff_delay
    refine max_le ?_ ?_
    · exact mul_nonneg hcap (by linarith)
    · have hle : min cfg.backoff_cap (cfg.backoff_base * 2 ^ i) * (1 + t * cfg.jitter_frac)
          ≤ cfg.backoff_cap * (1 + cfg.jitter_frac) :=
        mul_le_mul (min_le_left _ _) hfac1 hfac0 hcap
      nlinarith [hle]
  · unfold _sleep_backoff_delay
    refine max_le_max (le_refl 0) ?_
    nlinarith [mul_le_mul_of_nonneg_right hBmono hfac0]
  · unfold _sleep_backoff_delay
    have h1 : (0:ℚ) ≤ min cfg.backoff_cap (cfg.backoff_base * 2 ^ i)
        + t * (min cfg.backoff_cap (cfg.backoff_base * 2 ^ i) * cfg.jitter_frac) := by
      nlinarith [mul_nonneg hB0 hfac0]
    have h2 : (0:ℚ) ≤ min cfg.backoff_cap (cfg.backoff_base * 2 ^ i)
        + -(t * (min cfg.backoff_cap (cfg.backoff_base * 2 ^ i) * cfg.jitter_frac)) := by
      nlinarith [mul_nonneg hB0 (show (0:ℚ) ≤ 1 - t * cfg.jitter_frac by nlinarith)]
    rw [max_eq_right h1, max_eq_right h2]
    ring

/-- C3 witness: the defaults (`base = 0.8`, `cap = 8`, `jitter = 0.25`)
at attempt index 2 and draw `t = 1/2` satisfy the hypotheses and the
conclusion of `c3_backoff_delay`. -/
theorem c3_backoff_delay_witness :
    ((0:ℚ) ≤ ({} : Config).backoff_base ∧ (0:ℚ) ≤ ({} : Config).backoff_cap
      ∧ (0:ℚ) ≤ ({} : Config).jitter_frac ∧ ({} : Config).jitter_frac ≤ 1
      ∧ (-1:ℚ) ≤ 1/2 ∧ (1/2:ℚ) ≤ 1)
    ∧ ((_sleep_backoff_delay {} 2 ((1/2) * (min ({} : Config).backoff_cap (({} : Config).backoff_base * 2 ^ 2) * ({} : Config).jitter_frac))
        = max 0 (min ({} : Config).backoff_cap (max 0 (({} : Config).backoff_base * 2 ^ 2)) * (1 + (1/2) * ({} : Config).jitter_frac)))
    ∧ 0 ≤ _sleep_backoff_delay {} 2 ((1/2) * (min ({} : Config).backoff_cap (({} : Config).backoff_base * 2 ^ 2) * ({} : Config).jitter_frac))
    ∧ _sleep_backoff_delay {} 2 ((1/2) * (min ({} : Config).backoff_cap (({} : Config).backoff_base * 2 ^ 2) * ({} : Config).jitter_frac))
        ≤ ({} : Config).backoff_cap * (1 + ({} : Config).jitter_frac)
    ∧ _sleep_backoff_delay {} 2 ((1/2) * (min ({} : Config).backoff_cap (({} : Config).backoff_base * 2 ^ 2) * ({} : Config).jitter_frac))
        ≤ _sleep_backoff_delay {} (2 + 1) ((1/2) * (min ({} : Config).backoff_cap (({} : Config).backoff_base * 2 ^ (2 + 1)) * ({} : Config).jitter_frac))
    ∧ _sleep_backoff_delay {} 2 ((1/2) * (min ({} : Config).backoff_cap (({} : Config).backoff_base * 2 ^ 2) * ({} : Config).jitter_frac))
        + _sleep_backoff_delay {} 2 (-((1/2) * (min ({} : Config).backoff_cap (({} : Config).backoff_base * 2 ^ 2) * ({} : Config).jitter_frac)))
        = 2 * min ({} : Config).backoff_cap (({} : Config).backoff_base * 2 ^ 2)
    ∧ min ({} : Config).backoff_cap (({} : Config).backoff_base * 2 ^ 2)
        ≤ min ({} : Config).backoff_cap (({} : Config).backoff_base * 2 ^ (2 + 1))) :=
  ⟨⟨by norm_num [Config.mk], by norm_num [Config.mk], by norm_num [Config.mk],
    by norm_num [Config.mk], by norm_num, by norm_num⟩,
   c3_backoff_delay {} 2 (1/2) (by norm_num [Config.mk]) (by norm_num [Config.mk])
     (by norm_num [Config.mk]) (by norm_num [Config.mk]) (by norm_num) (by norm_num)⟩

/-- C9 counterexample: the claim says `get_esg_short` never raises for an
oddly-shaped field, but on a payload whose `totalEsg` field is present
with a non-mapping value (here the number `5`), the
`data.get("totalEsg", {}).get("fmt", "-")` chain of `get_esg_short`
raises AttributeError. -/
theorem c9_short_raises_on_odd_shape :
    esg_short_row "T" [("totalEsg", Json.num 5)] = .error .attributeError := rfl

/-- C9 (amended): for a payload whose overall structure is present
(a dict `kvs`) and a dot-free score key: a missing field surfaces as the
placeholder `"-"` in both the safe lookup `g` used by `get_esg_full` and
the `.get` chain used by `get_esg_short`, without raising; a present
field of shape `{"fmt": v}` surfaces as `v` in both; a present dict
field without `"fmt"` surfaces as the placeholder in both; and a present
field of any non-dict shape surfaces as the placeholder in `get_esg_full`
but raises AttributeError in `get_esg_short`. -/
theorem c9_scores_amended (kvs : List (String × Json)) (key : String)
    (hsplit : pySplit (key ++ ".fmt") '.' = [key, "fmt"]) :
    (jLookup kvs key = none →
      g (.obj kvs) (key ++ ".fmt") (.str "-") = .str "-"
        ∧ shortScore kvs key = .ok (.str "-"))
    ∧ (∀ inner v, jLookup kvs key = some (.obj inner) → jLookup inner "fmt" = some v →
      g (.obj kvs) (key ++ ".fmt") (.str "-") = v ∧ shortScore kvs key = .ok v)
    ∧ (∀ inner, jLookup kvs key = some (.obj inner) → jLookup inner "fmt" = none →
      g (.obj kvs) (key ++ ".fmt") (.str "-") = .str "-"
        ∧ shortScore kvs key = .ok (.str "-"))
    ∧ (∀ j, jLookup kvs key = some j → (∀ inner, j ≠ .obj inner) →
      g (.obj kvs) (key ++ ".fmt") (.str "-") = .str "-"
        ∧ shortScore kvs key = .error .attributeError) := by
  refine ⟨?_, ?_, ?_, ?_⟩
  · intro hnone
    constructor
    · unfold g
      rw [hsplit]
      simp [gPath, hnone]
    · unfold shortScore
      rw [hnone]
      rfl
  · intro inner v hsome hfmt
    constructor
    · unfold g
      rw [hsplit]
      simp [gPath, hsome, hfmt]
    · unfold shortScore
      rw [hsome]
      simp [pyGetFmt, hfmt]
  · intro inner hsome hfmt
    constructor
    · unfold g
      rw [hsplit]
      simp [gPath, hsome, hfmt]
    · unfold shortScore
      rw [hsome]
      simp [pyGetFmt, hfmt]
  · intro j hsome hodd
    cases j with
    | obj inner => exact absurd rfl (hodd inner)
    | null =>
      refine ⟨?_, ?_⟩
      · unfold g
        rw [hsplit]
        simp [gPath, hsome]
      · simp [shortScore, hsome, pyGetFmt]
    | bool b =>
      refine ⟨?_, ?_⟩
      · unfold g
        rw [hsplit]
        simp [gPath, hsome]
      · simp [shortScore, hsome, pyGetFmt]
    | num q =>
      refine ⟨?_, ?_⟩
      · unfold g
        rw [hsplit]
        simp [gPath, hsome]
      · simp [shortScore, hsome, pyGetFmt]
    | str v =>
      refine ⟨?_, ?_⟩
      · unfold g
        rw [hsplit]
        simp [gPath, hsome]
      · simp [shortScore, hsome, pyGetFmt]
    | arr xs =>
      refine ⟨?_, ?_⟩
      · unfold g
        rw [hsplit]
        simp [gPath, hsome]
      · simp [shortScore, hsome, pyGetFmt]

/-- C9 witness: on the concrete payload
`{"totalEsg": {"fmt": "25.1"}}` the present-field clause of
`c9_scores_amended` applies: both extraction paths give `"25.1"`. -/
theorem c9_scores_amended_witness :
    g (.obj [("totalEsg", Json.obj [("fmt", Json.str "25.1")])]) ("totalEsg" ++ ".fmt") (.str "-")
        = Json.str "25.1"
      ∧ shortScore [("totalEsg", Json.obj [("fmt", Json.str "25.1")])] "totalEsg"
        = .ok (Json.str "25.1") :=
  (c9_scores_amended [("totalEsg", Json.obj [("fmt", Json.str "25.1")])] "totalEsg"
      rfl).2.1 [("fmt", Json.str "25.1")] (Json.str "25.1") rfl rfl

/-- `_ensure_cookie` with a truthy cached cookie is the identity: no
request is issued, the cached value is returned. -/
theorem ensure_cookie_cached (env : Env) (s : St) (c : String)
    (hc : s.cli._cookie = some c) (hne : c ≠ "") :
    _ensure_cookie env s = (.ok c, s) := by
  unfold _ensure_cookie
  rw [hc]
  simp [truthyOpt, hne]

/-- `_ensure_cookie` without a truthy cached cookie, when the bootstrap
yields a truthy `A1`: one bootstrap request, the value is cached and
returned as `"A1=" ++ a1`. -/
theorem ensure_cookie_fetch_ok (env : Env) (s : St)
    (hnc : truthyOpt s.cli._cookie = false)
    (ht : truthyOpt (bootA1 env s.nCookie) = true) :
    _ensure_cookie env s =
      (.ok ("A1=" ++ (bootA1 env s.nCookie).getD ""),
       { s with nCookie := s.nCookie + 1, trace := s.trace ++ [.cookieReq],
                cli := { s.cli with _cookie := some ("A1=" ++ (bootA1 env s.nCookie).getD "") } }) := by
  unfold _ensure_cookie
  rw [hnc]
  simp [ht]

/-- `_ensure_cookie` without a truthy cached cookie, when neither jar
yields a truthy `A1`: one bootstrap request, then the AuthError; neither
credential is modified. -/
theorem ensure_cookie_fetch_fail (env : Env) (s : St)
    (hnc : truthyOpt s.cli._cookie = false)
    (ht : truthyOpt (bootA1 env s.nCookie) = false) :
    _ensure_cookie env s =
      (.error .authCookie,
       { s with nCookie := s.nCookie + 1, trace := s.trace ++ [.cookieReq] }) := by
  unfold _ensure_cookie
  rw [hnc]
  simp [ht]

/-- `_ensure_crumb` with a truthy cached crumb is the identity. -/
theorem ensure_crumb_cached (env : Env) (s : St) (c : String)
    (hc : s.cli._crumb = some c) (hne : c ≠ "") :
    _ensure_crumb env s = (.ok c, s) := by
  unfold _ensure_crumb
  rw [hc]
  simp [truthyOpt, hne]

/-- `_ensure_crumb` without a truthy cached crumb but with a truthy
cached cookie, when the crumb endpoint answers non-4xx/5xx with a
non-empty stripped body: one crumb request carrying the cookie, the crumb
is cached and returned. -/
theorem ensure_crumb_fetch_ok (env : Env) (s : St) (c : String)
    (hnc : truthyOpt s.cli._crumb = false)
    (hc : s.cli._cookie = some c) (hcne : c ≠ "")
    (hst : raiseForStatusFails (env.crumbResp s.nCrumb).status = false)
    (htr : pyStrip (env.crumbResp s.nCrumb).text ≠ "") :
    _ensure_crumb env s =
      (.ok (pyStrip (env.crumbResp s.nCrumb).text),
       { s with nCrumb := s.nCrumb + 1, trace := s.trace ++ [.crumbReq c],
                cli := { s.cli with _crumb := some (pyStrip (env.crumbResp s.nCrumb).text) } }) := by
  unfold _ensure_crumb
  rw [hnc]
  rw [show _default_headers env s = (.ok c, s) from ensure_cookie_cached env s c hc hcne]
  simp [hst, htr]

/-- `_do` with `need_crumb` and a warm cached crumb: the cached crumb is
injected via `setdefault` (no crumb request is issued) and the next data
response is returned. -/
theorem do_warm (env : Env) (h : String) (p : Params) (s : St) (r0 : String)
    (hr : s.cli._crumb = some r0) (hr0 : r0 ≠ "") :
    _do env h true p none s =
      (.ok (env.dataResp s.nData),
       { s with nData := s.nData + 1,
                trace := s.trace ++ [.dataReq (dictSetdefault p "crumb" r0) h] }) := by
  unfold _do
  rw [ensure_crumb_cached env s r0 hr hr0]
  simp [hr]

/-- `_reauth(reset_session=True)` under a working auth environment:
the transport generation is bumped, both credentials are discarded and
repopulated from the environment (cookie first, then crumb), and the
trace records the reauth, the bootstrap request and the crumb request in
that order.  The resulting credentials depend only on the environment and
the request counters, never on the previously cached values. -/
theorem reauth_ok (env : Env) (s : St)
    (ht : truthyOpt (bootA1 env s.nCookie) = true)
    (hst : raiseForStatusFails (env.crumbResp s.nCrumb).status = false)
    (htr : pyStrip (env.crumbResp s.nCrumb).text ≠ "") :
    _reauth env true s =
      (.ok (),
       { s with cli := { sessionGen := s.cli.sessionGen + 1,
                         _cookie := some ("A1=" ++ (bootA1 env s.nCookie).getD ""),
                         _crumb := some (pyStrip (env.crumbResp s.nCrumb).text) },
                nCookie := s.nCookie + 1, nCrumb := s.nCrumb + 1,
                trace := s.trace ++ [.reauth true, .cookieReq,
                                     .crumbReq ("A1=" ++ (bootA1 env s.nCookie).getD "")] }) := by
  unfold _reauth
  simp only [if_true, ite_true]
  rw [ensure_cookie_fetch_ok env
    { cli := { sessionGen := s.cli.sessionGen + 1, _cookie := none, _crumb := none },
      nCookie := s.nCookie, nCrumb := s.nCrumb, nData := s.nData,
      trace := s.trace ++ [Event.reauth true] }
    rfl (by simpa using ht)]
  dsimp only
  rw [ensure_crumb_fetch_ok env
    { cli := { sessionGen := s.cli.sessionGen + 1,
               _cookie := some ("A1=" ++ (bootA1 env s.nCookie).getD ""), _crumb := none },
      nCookie := s.nCookie + 1, nCrumb := s.nCrumb, nData := s.nData,
      trace := s.trace ++ [Event.reauth true] ++ [Event.cookieReq] }
    ("A1=" ++ (bootA1 env s.nCookie).getD "")
    rfl rfl (A1_ne_empty _) hst htr]
  simp [List.append_assoc]

/-- A transient status (429 or 5xx) is always in the 4xx/5xx range, so
`raise_for_status` raises on it. -/
theorem transient_raiseFails {st : ℕ} (h : isTransient st = true) :
    raiseForStatusFails st = true := by
  simp [isTransient, Bool.or_eq_true, beq_iff_eq, Bool.and_eq_true, decide_eq_true_iff] at h
  rcases h with rfl | ⟨h1, h2⟩
  · simp [raiseForStatusFails]
  · simp [raiseForStatusFails, Bool.and_eq_true, decide_eq_true_iff]
    omega

/-- The backoff loop under a warm cached crumb, when the data responses
before index `N` all equal a transient response `rT` and the loop enters
at attempt `attempt` with `fuel = N - attempt` budget left: it sleeps and
reissues once per remaining index, always with the same
cached-crumb-injected parameters, and stops having consumed response `N`.
No cookie or crumb request is issued and the client state is otherwise
untouched. -/
theorem retryLoop_run (env : Env) (h : String) (p : Params) (r0 : String) (rT : Response) (N : ℕ)
    (hAll : ∀ n, n < N → env.dataResp n = rT)
    (hT : isTransient rT.status = true) :
    ∀ fuel attempt s, fuel + attempt = N → s.nData = attempt + 1 →
      s.cli._crumb = some r0 → r0 ≠ "" →
      retryLoop env h true p fuel attempt (env.dataResp attempt) s =
        (.ok (env.dataResp N),
         { s with nData := N + 1,
                  trace := s.trace ++ retryEvents (dictSetdefault p "crumb" r0) h attempt fuel }) := by
  intro fuel
  induction fuel with
  | zero =>
    intro attempt s hfa hnd hr hr0
    have hA : attempt = N := by omega
    subst hA
    rcases s with ⟨cli, nc, ncr, nd, tr⟩
    simp only [St.mk.injEq] at hnd ⊢
    simp [retryLoop, retryEvents, hnd]
  | succ fuel ih =>
    intro attempt s hfa hnd hr hr0
    have hlt : attempt < N := by omega
    unfold retryLoop
    rw [hAll attempt hlt, hT]
    simp only [if_true, ite_true, _sleep_backoff_ev]
    rw [do_warm env h p { s with trace := s.trace ++ [Event.sleep attempt] } r0
      (by simpa using hr) hr0]
    dsimp only
    rw [hnd]
    rw [ih (attempt + 1)
      { s with nData := attempt + 1 + 1,
               trace := s.trace ++ [Event.sleep attempt]
                 ++ [Event.dataReq (dictSetdefault p "crumb" r0) h] }
      (by omega) rfl (by simpa using hr) hr0]
    simp [retryEvents, List.append_assoc]

/-- Every backoff-loop trace segment contains exactly one sleep per
iteration. -/
theorem countSleeps_retryEvents (p : Params) (h : String) :
    ∀ fuel attempt, countSleeps (retryEvents p h attempt fuel) = fuel := by
  intro fuel
  induction fuel with
  | zero => intro attempt; rfl
  | succ fuel ih =>
    intro attempt
    have hrest := ih (attempt + 1)
    simp [retryEvents, countSleeps, List.countP_cons] at hrest ⊢
    omega

/-- The backoff loop never issues a cookie or crumb request. -/
theorem countAuthReqs_retryEvents (p : Params) (h : String) :
    ∀ fuel attempt, countAuthReqs (retryEvents p h attempt fuel) = 0 := by
  intro fuel
  induction fuel with
  | zero => intro attempt; rfl
  | succ fuel ih =>
    intro attempt
    simp only [retryEvents, countAuthReqs, List.countP_cons]
    simpa [countAuthReqs] using ih (attempt + 1)

/-- C1: with a warm cached crumb, when the upstream data endpoint
returns the same transient response (429 here, or any 5xx) for the first
`max_retries` attempts: if the next response succeeds (status 200) the
call returns it after exactly `max_retries` backoff sleeps, and if the
upstream is still transient on attempt `max_retries + 1` the call fails
with the HttpError from `raise_for_status`; in both cases the trace shows
every reissue carrying the same parameters with the cached crumb injected
via `setdefault` (`dictSetdefault p "crumb" r0`), no cookie or crumb
request is issued (`countAuthReqs = 0`, and the client state `cli` is
unchanged in the final state), and exactly `max_retries` sleeps occur.
The hypothesis `0 < max_retries` matches the source default (4). -/
theorem c1_transient_retries (cfg : Config) (env : Env) (p : Params) (h : String)
    (s : St) (r0 : String) (rT : Response)
    (hM : 0 < cfg.max_retries)
    (hr : s.cli._crumb = some r0) (hr0 : r0 ≠ "")
    (hnd : s.nData = 0)
    (hAll : ∀ n, n < cfg.max_retries → env.dataResp n = rT)
    (hT : isTransient rT.status = true)
    (hNA : isAuthFailure rT = false) :
    ((env.dataResp cfg.max_retries).status = 200 →
      _request cfg env true p (some h) s =
        (.ok (env.dataResp cfg.max_retries),
         { s with nData := cfg.max_retries + 1,
                  trace := s.trace
                    ++ Event.dataReq (dictSetdefault p "crumb" r0) h
                      :: retryEvents (dictSetdefault p "crumb" r0) h 0 cfg.max_retries }))
    ∧ (env.dataResp cfg.max_retries = rT →
      _request cfg env true p (some h) s =
        (.error (.httpError rT.status),
         { s with nData := cfg.max_retries + 1,
                  trace := s.trace
                    ++ Event.dataReq (dictSetdefault p "crumb" r0) h
                      :: retryEvents (dictSetdefault p "crumb" r0) h 0 cfg.max_retries }))
    ∧ countSleeps (Event.dataReq (dictSetdefault p "crumb" r0) h
        :: retryEvents (dictSetdefault p "crumb" r0) h 0 cfg.max_retries) = cfg.max_retries
    ∧ countAuthReqs (Event.dataReq (dictSetdefault p "crumb" r0) h
        :: retryEvents (dictSetdefault p "crumb" r0) h 0 cfg.max_retries) = 0 := by
  have hd0 : env.dataResp 0 = rT := hAll 0 hM
  have hcommon : _request cfg env true p (some h) s =
      (if raiseForStatusFails (env.dataResp cfg.max_retries).status = true
       then (.error (.httpError (env.dataResp cfg.max_retries).status),
             { s with nData := cfg.max_retries + 1,
                      trace := s.trace
                        ++ Event.dataReq (dictSetdefault p "crumb" r0) h
                          :: retryEvents (dictSetdefault p "crumb" r0) h 0 cfg.max_retries })
       else (.ok (env.dataResp cfg.max_retries),
             { s with nData := cfg.max_retries + 1,
                      trace := s.trace
                        ++ Event.dataReq (dictSetdefault p "crumb" r0) h
                          :: retryEvents (dictSetdefault p "crumb" r0) h 0 cfg.max_retries })) := by
    unfold _request
    dsimp only
    rw [do_warm env h p s r0 hr hr0]
    dsimp only
    rw [hnd]
    unfold requestAfterFirst
    rw [show isAuthFailure (env.dataResp 0) = false from by rw [hd0]; exact hNA]
    simp only [Bool.false_eq_true, if_false]
    unfold finishRequest
    rw [retryLoop_run env h p r0 rT cfg.max_retries hAll hT cfg.max_retries 0
      { s with nData := 0 + 1,
               trace := s.trace ++ [Event.dataReq (dictSetdefault p "crumb" r0) h] }
      rfl rfl (by simpa using hr) hr0]
    dsimp only
    split
    · simp [List.append_assoc]
    · simp [List.append_assoc]
  refine ⟨?_, ?_, ?_, ?_⟩
  · intro h200
    rw [hcommon, h200]
    simp [raiseForStatusFails]
  · intro hrT
    rw [hcommon, hrT, transient_raiseFails hT]
    simp
  · simp [countSleeps, List.countP_cons, countSleeps_retryEvents]
    have := countSleeps_retryEvents (dictSetdefault p "crumb" r0) h cfg.max_retries 0
    simpa [countSleeps] using this
  · simp [countAuthReqs, List.countP_cons]
    have := countAuthReqs_retryEvents (dictSetdefault p "crumb" r0) h cfg.max_retries 0
    simpa [countAuthReqs] using this

/-- C1 witness: with the default configuration (`max_retries = 4`), a
warm client and an upstream answering 429 four times then 200, the call
succeeds; against an upstream answering 429 every time, it fails with
`HttpError 429`; four sleeps and no auth requests in both cases. -/
theorem c1_transient_retries_witness :
    (_request {} envRetrySucceed true [] (some "H") stWarm =
      (.ok (envRetrySucceed.dataResp ({} : Config).max_retries),
       { stWarm with nData := ({} : Config).max_retries + 1,
                     trace := stWarm.trace
                       ++ Event.dataReq (dictSetdefault [] "crumb" "oldcrumb") "H"
                         :: retryEvents (dictSetdefault [] "crumb" "oldcrumb") "H" 0
                              ({} : Config).max_retries }))
    ∧ (_request {} envAll429 true [] (some "H") stWarm =
      (.error (.httpError resp429.status),
       { stWarm with nData := ({} : Config).max_retries + 1,
                     trace := stWarm.trace
                       ++ Event.dataReq (dictSetdefault [] "crumb" "oldcrumb") "H"
                         :: retryEvents (dictSetdefault [] "crumb" "oldcrumb") "H" 0
                              ({} : Config).max_retries }))
    ∧ countSleeps (Event.dataReq (dictSetdefault [] "crumb" "oldcrumb") "H"
        :: retryEvents (dictSetdefault [] "crumb" "oldcrumb") "H" 0 ({} : Config).max_retries)
        = ({} : Config).max_retries :=
  ⟨(c1_transient_retries {} envRetrySucceed [] "H" stWarm "oldcrumb" resp429
      (by decide) rfl (by decide) rfl
      (by intro n hn
          have hn4 : n < 4 := hn
          simp [envRetrySucceed, envW, hn4])
      rfl rfl).1 rfl,
   (c1_transient_retries {} envAll429 [] "H" stWarm "oldcrumb" resp429
      (by decide) rfl (by decide) rfl
      (by intro n hn; rfl)
      rfl rfl).2.1 rfl,
   (c1_transient_retries {} envAll429 [] "H" stWarm "oldcrumb" resp429
      (by decide) rfl (by decide) rfl
      (by intro n hn; rfl)
      rfl rfl).2.2.1⟩

/-- The backoff loop returns a non-transient response immediately,
whatever budget remains. -/
theorem retryLoop_not_transient (env : Env) (h : String) (nc : Bool) (p : Params)
    (resp : Response) (hnt : isTransient resp.status = false) :
    ∀ fuel attempt s, retryLoop env h nc p fuel attempt resp s = (.ok resp, s) := by
  intro fuel attempt s
  cases fuel with
  | zero => rfl
  | succ fuel => simp [retryLoop, hnt]

/-- C2: (a) a response is classified as an auth failure exactly when its
status is 401 or 403, or its status is 400 and its lowercased body
contains both "crumb" and "invalid" or contains "unauthoriz";
(b) with a warm cached crumb, when the first data response is an auth
failure, the auth endpoints work, and the reissued request succeeds
(status 200): the call performs exactly one reauth with transport reset
(`sessionGen` bumped, `countReauths = 1`), rebuilds the headers from the
freshly acquired cookie (the reissued data request carries the new
`Cookie` value), rebuilds the crumb parameter from the newly issued
crumb, reissues exactly once, and returns the second response without
raising. -/
theorem c2_auth_recovery (cfg : Config) (env : Env) (p : Params) (h : String)
    (s : St) (r0 : String) (r : Response)
    (hr : s.cli._crumb = some r0) (hr0 : r0 ≠ "")
    (hnd : s.nData = 0)
    (hAF : isAuthFailure (env.dataResp 0) = true)
    (hA1 : truthyOpt (bootA1 env s.nCookie) = true)
    (hcst : raiseForStatusFails (env.crumbResp s.nCrumb).status = false)
    (hctr : pyStrip (env.crumbResp s.nCrumb).text ≠ "")
    (hs2 : (env.dataResp 1).status = 200) :
    (isAuthFailure r = true ↔
      (r.status = 401 ∨ r.status = 403 ∨
        (r.status = 400 ∧
          ((strContains r.text.toLower "crumb" = true ∧ strContains r.text.toLower "invalid" = true)
            ∨ strContains r.text.toLower "unauthoriz" = true))))
    ∧ _request cfg env true p (some h) s =
      (.ok (env.dataResp 1),
       { s with cli := { sessionGen := s.cli.sessionGen + 1,
                         _cookie := some ("A1=" ++ (bootA1 env s.nCookie).getD ""),
                         _crumb := some (pyStrip (env.crumbResp s.nCrumb).text) },
                nCookie := s.nCookie + 1, nCrumb := s.nCrumb + 1, nData := 2,
                trace := s.trace ++ [Event.dataReq (dictSetdefault p "crumb" r0) h,
                          Event.reauth true, Event.cookieReq,
                          Event.crumbReq ("A1=" ++ (bootA1 env s.nCookie).getD ""),
                          Event.dataReq
                            (dictSetdefault
                              (dictUpdate p "crumb" (pyStrip (env.crumbResp s.nCrumb).text))
                              "crumb" (pyStrip (env.crumbResp s.nCrumb).text))
                            ("A1=" ++ (bootA1 env s.nCookie).getD "")] })
    ∧ countReauths [Event.dataReq (dictSetdefault p "crumb" r0) h,
                          Event.reauth true, Event.cookieReq,
                          Event.crumbReq ("A1=" ++ (bootA1 env s.nCookie).getD ""),
                          Event.dataReq
                            (dictSetdefault
                              (dictUpdate p "crumb" (pyStrip (env.crumbResp s.nCrumb).text))
                              "crumb" (pyStrip (env.crumbResp s.nCrumb).text))
                            ("A1=" ++ (bootA1 env s.nCookie).getD "")] = 1 := by
  refine ⟨?_, ?_, ?_⟩
  · simp [isAuthFailure, _crumb_invalid, Bool.or_eq_true, Bool.and_eq_true, beq_iff_eq]
    tauto
  · unfold _request
    dsimp only
    rw [do_warm env h p s r0 hr hr0]
    dsimp only
    rw [hnd]
    unfold requestAfterFirst
    rw [hAF]
    simp only [if_true, ite_true]
    rw [reauth_ok env
      { s with nData := 0 + 1,
               trace := s.trace ++ [Event.dataReq (dictSetdefault p "crumb" r0) h] }
      (by simpa using hA1) (by simpa using hcst) (by simpa using hctr)]
    dsimp only
    rw [show _default_headers env
      { cli := { sessionGen := s.cli.sessionGen + 1,
                 _cookie := some ("A1=" ++ (bootA1 env s.nCookie).getD ""),
                 _crumb := some (pyStrip (env.crumbResp s.nCrumb).text) },
        nCookie := s.nCookie + 1, nCrumb := s.nCrumb + 1, nData := 0 + 1,
        trace := s.trace ++ [Event.dataReq (dictSetdefault p "crumb" r0) h] ++
          [Event.reauth true, Event.cookieReq,
           Event.crumbReq ("A1=" ++ (bootA1 env s.nCookie).getD "")] }
      = (.ok ("A1=" ++ (bootA1 env s.nCookie).getD ""),
         { cli := { sessionGen := s.cli.sessionGen + 1,
                    _cookie := some ("A1=" ++ (bootA1 env s.nCookie).getD ""),
                    _crumb := some (pyStrip (env.crumbResp s.nCrumb).text) },
           nCookie := s.nCookie + 1, nCrumb := s.nCrumb + 1, nData := 0 + 1,
           trace := s.trace ++ [Event.dataReq (dictSetdefault p "crumb" r0) h] ++
             [Event.reauth true, Event.cookieReq,
              Event.crumbReq ("A1=" ++ (bootA1 env s.nCookie).getD "")] })
      from ensure_cookie_cached env _ _ rfl (A1_ne_empty _)]
    dsimp only
    unfold _do
    simp only [List.foldl]
    rw [ensure_crumb_cached env
      { cli := { sessionGen := s.cli.sessionGen + 1,
                 _cookie := some ("A1=" ++ (bootA1 env s.nCookie).getD ""),
                 _crumb := some (pyStrip (env.crumbResp s.nCrumb).text) },
        nCookie := s.nCookie + 1, nCrumb := s.nCrumb + 1, nData := 0 + 1,
        trace := s.trace ++ [Event.dataReq (dictSetdefault p "crumb" r0) h] ++
          [Event.reauth true, Event.cookieReq,
           Event.crumbReq ("A1=" ++ (bootA1 env s.nCookie).getD "")] }
      (pyStrip (env.crumbResp s.nCrumb).text) rfl hctr]
    dsimp only
    simp only [if_true, Option.getD_some, Nat.zero_add]
    unfold finishRequest
    rw [retryLoop_not_transient env ("A1=" ++ (bootA1 env s.nCookie).getD "") true p
      (env.dataResp 1) (by simp [isTransient, hs2]) cfg.max_retries 0 _]
    dsimp only
    rw [hs2]
    simp [raiseForStatusFails, List.append_assoc]
  · rfl

/-- C2 witness: against an upstream returning 403 once then succeeding,
with working auth endpoints, the warm client recovers with exactly one
reauth cycle and the call succeeds; and the 403 response is classified as
an auth failure. -/
theorem c2_auth_recovery_witness :
    (isAuthFailure resp403 = true ↔
      (resp403.status = 401 ∨ resp403.status = 403 ∨
        (resp403.status = 400 ∧
          ((strContains resp403.text.toLower "crumb" = true
              ∧ strContains resp403.text.toLower "invalid" = true)
            ∨ strContains resp403.text.toLower "unauthoriz" = true))))
    ∧ _request {} env403Once true [] (some "H") stWarm =
      (.ok (env403Once.dataResp 1),
       { stWarm with cli := { sessionGen := stWarm.cli.sessionGen + 1,
                              _cookie := some ("A1=" ++ (bootA1 env403Once stWarm.nCookie).getD ""),
                              _crumb := some (pyStrip (env403Once.crumbResp stWarm.nCrumb).text) },
                     nCookie := stWarm.nCookie + 1, nCrumb := stWarm.nCrumb + 1, nData := 2,
                     trace := stWarm.trace ++ [Event.dataReq (dictSetdefault [] "crumb" "oldcrumb") "H",
                          Event.reauth true, Event.cookieReq,
                          Event.crumbReq ("A1=" ++ (bootA1 env403Once stWarm.nCookie).getD ""),
                          Event.dataReq
                            (dictSetdefault
                              (dictUpdate [] "crumb" (pyStrip (env403Once.crumbResp stWarm.nCrumb).text))
                              "crumb" (pyStrip (env403Once.crumbResp stWarm.nCrumb).text))
                            ("A1=" ++ (bootA1 env403Once stWarm.nCookie).getD "")] })
    ∧ countReauths [Event.dataReq (dictSetdefault [] "crumb" "oldcrumb") "H",
                          Event.reauth true, Event.cookieReq,
                          Event.crumbReq ("A1=" ++ (bootA1 env403Once stWarm.nCookie).getD ""),
                          Event.dataReq
                            (dictSetdefault
                              (dictUpdate [] "crumb" (pyStrip (env403Once.crumbResp stWarm.nCrumb).text))
                              "crumb" (pyStrip (env403Once.crumbResp stWarm.nCrumb).text))
                            ("A1=" ++ (bootA1 env403Once stWarm.nCookie).getD "")] = 1 :=
  c2_auth_recovery {} env403Once [] "H" stWarm "oldcrumb" resp403
    rfl (by decide) rfl rfl (by decide) (by decide) (by decide) rfl

/-- C4: `_reauth` discards both credentials together and repopulates them
by `ensure_cookie` then `ensure_crumb`: (a) on a working auth environment
it succeeds and the resulting cookie and crumb are both the freshly
acquired values, determined by the environment and request counters alone
(the prior cached values do not appear); (b) whatever the outcome, the
post-reauth cookie is `none` or the fresh value and the post-reauth crumb
is `none` or the freshly stripped body — never a stale value, so no stale
cookie/fresh crumb mix is observable; (c) the only other credential
mutators, `_ensure_cookie` and `_ensure_crumb`, never invalidate a cached
credential: `_ensure_cookie` leaves the crumb untouched and is the
identity on a truthy cookie, `_ensure_crumb` preserves a truthy cookie
and is the identity on a truthy crumb — so no operation can partially
invalidate just one credential. -/
theorem c4_reauth_atomic (env : Env) (s : St) :
    (truthyOpt (bootA1 env s.nCookie) = true →
      raiseForStatusFails (env.crumbResp s.nCrumb).status = false →
      pyStrip (env.crumbResp s.nCrumb).text ≠ "" →
      _reauth env true s =
        (.ok (),
         { s with cli := { sessionGen := s.cli.sessionGen + 1,
                           _cookie := some ("A1=" ++ (bootA1 env s.nCookie).getD ""),
                           _crumb := some (pyStrip (env.crumbResp s.nCrumb).text) },
                  nCookie := s.nCookie + 1, nCrumb := s.nCrumb + 1,
                  trace := s.trace ++ [.reauth true, .cookieReq,
                                       .crumbReq ("A1=" ++ (bootA1 env s.nCookie).getD "")] }))
    ∧ (((_reauth env true s).2.cli._cookie = none
        ∨ (_reauth env true s).2.cli._cookie = some ("A1=" ++ (bootA1 env s.nCookie).getD ""))
      ∧ ((_reauth env true s).2.cli._crumb = none
        ∨ (_reauth env true s).2.cli._crumb = some (pyStrip (env.crumbResp s.nCrumb).text)))
    ∧ ((_ensure_cookie env s).2.cli._crumb = s.cli._crumb)
    ∧ (truthyOpt s.cli._cookie = true → _ensure_cookie env s = (.ok (s.cli._cookie.getD ""), s))
    ∧ (truthyOpt s.cli._cookie = true → (_ensure_crumb env s).2.cli._cookie = s.cli._cookie)
    ∧ (truthyOpt s.cli._crumb = true → _ensure_crumb env s = (.ok (s.cli._crumb.getD ""), s)) := by
  have hsome : ∀ o : Option String, truthyOpt o = true → ∃ c, o = some c ∧ c ≠ "" := by
    intro o ho
    rcases o with _ | c
    · simp [truthyOpt] at ho
    · refine ⟨c, rfl, ?_⟩
      by_cases hce : c = "" <;> simp [truthyOpt, hce] at ho ⊢
  refine ⟨?_, ?_, ?_, ?_, ?_, ?_⟩
  · intro ht hst htr
    exact reauth_ok env s ht hst htr
  · unfold _reauth
    simp only [if_true, ite_true]
    by_cases hb : truthyOpt (bootA1 env s.nCookie) = true
    · rw [ensure_cookie_fetch_ok env
        { cli := { sessionGen := s.cli.sessionGen + 1, _cookie := none, _crumb := none },
          nCookie := s.nCookie, nCrumb := s.nCrumb, nData := s.nData,
          trace := s.trace ++ [Event.reauth true] }
        rfl (by simpa using hb)]
      dsimp only
      unfold _ensure_crumb
      rw [show _default_headers env
        { cli := { sessionGen := s.cli.sessionGen + 1,
                   _cookie := some ("A1=" ++ (bootA1 env s.nCookie).getD ""), _crumb := none },
          nCookie := s.nCookie + 1, nCrumb := s.nCrumb, nData := s.nData,
          trace := s.trace ++ [Event.reauth true] ++ [Event.cookieReq] }
        = (.ok ("A1=" ++ (bootA1 env s.nCookie).getD ""),
           { cli := { sessionGen := s.cli.sessionGen + 1,
                      _cookie := some ("A1=" ++ (bootA1 env s.nCookie).getD ""), _crumb := none },
             nCookie := s.nCookie + 1, nCrumb := s.nCrumb, nData := s.nData,
             trace := s.trace ++ [Event.reauth true] ++ [Event.cookieReq] })
        from ensure_cookie_cached env _ _ rfl (A1_ne_empty _)]
      dsimp only
      simp only [truthyOpt]
      split_ifs with h0 h1 h2 <;>
        first
          | exact (by assumption : False).elim
          | exact ⟨Or.inr rfl, Or.inl rfl⟩
          | exact ⟨Or.inr rfl, Or.inr rfl⟩
    · simp only [Bool.not_eq_true] at hb
      rw [ensure_cookie_fetch_fail env
        { cli := { sessionGen := s.cli.sessionGen + 1, _cookie := none, _crumb := none },
          nCookie := s.nCookie, nCrumb := s.nCrumb, nData := s.nData,
          trace := s.trace ++ [Event.reauth true] }
        rfl (by simpa using hb)]
      constructor
      · left; rfl
      · left; rfl
  · unfold _ensure_cookie
    by_cases hc : truthyOpt s.cli._cookie = true
    · simp [hc]
    · simp only [Bool.not_eq_true] at hc
      rw [hc]
      by_cases hb : truthyOpt (bootA1 env s.nCookie) = true
      · simp [hb]
      · simp only [Bool.not_eq_true] at hb
        simp [hb]
  · intro hc
    obtain ⟨c, hs', hcne⟩ := hsome _ hc
    rw [ensure_cookie_cached env s c hs' hcne, hs']
    simp
  · intro hc
    obtain ⟨c, hs', hcne⟩ := hsome _ hc
    unfold _ensure_crumb
    by_cases hcr : truthyOpt s.cli._crumb = true
    · simp [hcr]
    · simp only [Bool.not_eq_true] at hcr
      rw [hcr]
      rw [show _default_headers env s = (.ok c, s) from ensure_cookie_cached env s c hs' hcne]
      dsimp only
      split_ifs <;> rfl
  · intro hc
    obtain ⟨c, hs', hcne⟩ := hsome _ hc
    rw [ensure_crumb_cached env s c hs' hcne, hs']
    simp

/-- C4 witness: reauth against the working fixture environment from a
warm client yields exactly the fresh cookie `A1=fresha1` and fresh crumb
`freshcrumb`, bumping the transport generation. -/
theorem c4_reauth_atomic_witness :
    _reauth envHistOK true stWarm =
      (.ok (),
       { stWarm with cli := { sessionGen := stWarm.cli.sessionGen + 1,
                              _cookie := some ("A1=" ++ (bootA1 envHistOK stWarm.nCookie).getD ""),
                              _crumb := some (pyStrip (envHistOK.crumbResp stWarm.nCrumb).text) },
                     nCookie := stWarm.nCookie + 1, nCrumb := stWarm.nCrumb + 1,
                     trace := stWarm.trace ++ [.reauth true, .cookieReq,
                       .crumbReq ("A1=" ++ (bootA1 envHistOK stWarm.nCookie).getD "")] }) :=
  (c4_reauth_atomic envHistOK stWarm).1 (by decide) (by decide) (by decide)

/-- C5: the crumb request is never issued without an established session
cookie: `_ensure_crumb` (i) returns a truthy cached crumb without issuing
anything; (ii) with a truthy cached cookie, issues exactly one crumb
request carrying that cookie (whatever the crumb endpoint answers);
(iii) with no usable cookie, first issues the bootstrap request and only
then — if a cookie was actually obtained — the crumb request, which
carries the newly cached cookie; (iv) and when no cookie can be obtained,
it fails having issued the bootstrap request only: no crumb request ever
precedes cookie acquisition. -/
theorem c5_cookie_before_crumb (env : Env) (s : St) (c : String) :
    (truthyOpt s.cli._crumb = true → _ensure_crumb env s = (.ok (s.cli._crumb.getD ""), s))
    ∧ (truthyOpt s.cli._crumb = false → s.cli._cookie = some c → c ≠ "" →
        ((_ensure_crumb env s).2.trace = s.trace ++ [Event.crumbReq c]
          ∧ (_ensure_crumb env s).2.cli._cookie = some c))
    ∧ (truthyOpt s.cli._crumb = false → truthyOpt s.cli._cookie = false →
        truthyOpt (bootA1 env s.nCookie) = true →
        ((_ensure_crumb env s).2.trace
            = s.trace ++ [Event.cookieReq, Event.crumbReq ("A1=" ++ (bootA1 env s.nCookie).getD "")]
          ∧ (_ensure_crumb env s).2.cli._cookie
            = some ("A1=" ++ (bootA1 env s.nCookie).getD "")))
    ∧ (truthyOpt s.cli._crumb = false → truthyOpt s.cli._cookie = false →
        truthyOpt (bootA1 env s.nCookie) = false →
        _ensure_crumb env s
          = (.error .authCookie,
             { s with nCookie := s.nCookie + 1, trace := s.trace ++ [Event.cookieReq] })) := by
  refine ⟨?_, ?_, ?_, ?_⟩
  · intro hc
    rcases hx : s.cli._crumb with _ | cr
    · rw [hx] at hc
      simp [truthyOpt] at hc
    · have hcrne : cr ≠ "" := by
        rw [hx] at hc
        by_cases hce : cr = "" <;> simp [truthyOpt, hce] at hc ⊢
      rw [ensure_crumb_cached env s cr hx hcrne]
      simp [hx]
  · intro hcr hco hcne
    unfold _ensure_crumb
    rw [hcr]
    rw [show _default_headers env s = (.ok c, s) from ensure_cookie_cached env s c hco hcne]
    dsimp only
    split_ifs <;>
      first
        | exact (by assumption : False).elim
        | exact ⟨rfl, hco⟩
  · intro hcr hco hb
    unfold _ensure_crumb
    rw [hcr]
    rw [show _default_headers env s =
        (.ok ("A1=" ++ (bootA1 env s.nCookie).getD ""),
         { s with nCookie := s.nCookie + 1, trace := s.trace ++ [.cookieReq],
                  cli := { s.cli with _cookie := some ("A1=" ++ (bootA1 env s.nCookie).getD "") } })
      from ensure_cookie_fetch_ok env s hco hb]
    dsimp only
    split_ifs <;>
      first
        | exact (by assumption : False).elim
        | exact ⟨by simp, rfl⟩
  · intro hcr hco hb
    unfold _ensure_crumb
    rw [hcr]
    rw [show _default_headers env s =
        (.error .authCookie, { s with nCookie := s.nCookie + 1, trace := s.trace ++ [.cookieReq] })
      from ensure_cookie_fetch_fail env s hco hb]
    rfl

/-- C5 witness: from a cold client against the working fixture
environment, `_ensure_crumb` issues the cookie request strictly before
the crumb request, and the crumb request carries the newly acquired
cookie. -/
theorem c5_cookie_before_crumb_witness :
    (_ensure_crumb envHistOK {}).2.trace
        = ({} : St).trace ++ [Event.cookieReq,
            Event.crumbReq ("A1=" ++ (bootA1 envHistOK ({} : St).nCookie).getD "")]
      ∧ (_ensure_crumb envHistOK {}).2.cli._cookie
        = some ("A1=" ++ (bootA1 envHistOK ({} : St).nCookie).getD "") :=
  (c5_cookie_before_crumb envHistOK {} "x").2.2.1 rfl rfl (by decide)

/-- C7 counterexample: the claim says `_ensure_cookie` fails with an
AuthError when no `A1` identifier is present in the response; but when
the response jar lacks `A1` while the transport session jar holds one
(as after a redirect hop), the source falls back to
`self.session.cookies.get("A1")` and succeeds. -/
theorem c7_cookie_session_fallback :
    _ensure_cookie envCookieFromSession {} =
      (.ok "A1=sessa1",
       { cli := { sessionGen := 0, _cookie := some "A1=sessa1", _crumb := none },
         nCookie := 1, nCrumb := 0, nData := 0, trace := [Event.cookieReq] })
    ∧ (envCookieFromSession.cookieResp 0).cookieA1 = none :=
  ⟨rfl, rfl⟩


/-- C7 (amended): `_ensure_cookie` returns a truthy cached cookie
unchanged without issuing any request; otherwise it issues one request to
the public endpoint and takes the `A1` identifier from the response
cookie jar, falling back to the transport session jar; the value is
cached and returned as `"A1=<value>"`; it fails with the AuthError only
when neither jar yields a truthy identifier. -/
theorem c7_ensure_cookie_amended (env : Env) (s : St) (c : String) :
    (s.cli._cookie = some c → c ≠ "" → _ensure_cookie env s = (.ok c, s))
    ∧ (truthyOpt s.cli._cookie = false →
        truthyOpt (env.cookieResp s.nCookie).cookieA1 = true →
        _ensure_cookie env s =
          (.ok ("A1=" ++ ((env.cookieResp s.nCookie).cookieA1.getD "")),
           { s with nCookie := s.nCookie + 1, trace := s.trace ++ [.cookieReq],
                    cli := { s.cli with
                      _cookie := some ("A1=" ++ ((env.cookieResp s.nCookie).cookieA1.getD "")) } }))
    ∧ (truthyOpt s.cli._cookie = false →
        truthyOpt (env.cookieResp s.nCookie).cookieA1 = false →
        truthyOpt (env.sessionA1 s.nCookie) = true →
        _ensure_cookie env s =
          (.ok ("A1=" ++ ((env.sessionA1 s.nCookie).getD "")),
           { s with nCookie := s.nCookie + 1, trace := s.trace ++ [.cookieReq],
                    cli := { s.cli with
                      _cookie := some ("A1=" ++ ((env.sessionA1 s.nCookie).getD "")) } }))
    ∧ (truthyOpt s.cli._cookie = false →
        truthyOpt (env.cookieResp s.nCookie).cookieA1 = false →
        truthyOpt (env.sessionA1 s.nCookie) = false →
        _ensure_cookie env s =
          (.error .authCookie,
           { s with nCookie := s.nCookie + 1, trace := s.trace ++ [.cookieReq] })) := by
  refine ⟨?_, ?_, ?_, ?_⟩
  · intro hc hcne
    exact ensure_cookie_cached env s c hc hcne
  · intro hc hra
    have hb : bootA1 env s.nCookie = (env.cookieResp s.nCookie).cookieA1 := by
      simp [bootA1, hra]
    rw [ensure_cookie_fetch_ok env s hc (by rw [hb]; exact hra), hb]
  · intro hc hra hsa
    have hb : bootA1 env s.nCookie = env.sessionA1 s.nCookie := by
      simp [bootA1, hra]
    rw [ensure_cookie_fetch_ok env s hc (by rw [hb]; exact hsa), hb]
  · intro hc hra hsa
    have hb : truthyOpt (bootA1 env s.nCookie) = false := by
      simp [bootA1, hra, hsa]
    exact ensure_cookie_fetch_fail env s hc hb

/-- C7 witness: from a cold client, with the `A1` only in the session
jar, the fallback clause of the amended characterization yields the
cached cookie `A1=sessa1` after one bootstrap request. -/
theorem c7_ensure_cookie_amended_witness :
    _ensure_cookie envCookieFromSession {} =
      (.ok ("A1=" ++ ((envCookieFromSession.sessionA1 ({} : St).nCookie).getD "")),
       { ({} : St) with nCookie := ({} : St).nCookie + 1,
                        trace := ({} : St).trace ++ [.cookieReq],
                        cli := { ({} : St).cli with
                          _cookie := some ("A1=" ++ ((envCookieFromSession.sessionA1 ({} : St).nCookie).getD "")) } }) :=
  (c7_ensure_cookie_amended envCookieFromSession {} "x").2.2.1 rfl rfl (by decide)

/-! Lemmas about the Python-dict operations used for crumb injection. -/

theorem any_of_lookup {p : Params} {k v : String} (h : List.lookup k p = some v) :
    p.any (fun kv => kv.1 = k) = true := by
  induction p with
  | nil => simp [List.lookup] at h
  | cons a rest ih =>
    rcases a with ⟨ak, av⟩
    by_cases hk : k = ak
    · subst hk
      simp
    · rw [List.lookup] at h
      rw [show ((k == ak) = false) from by simpa using hk] at h
      simp only [List.any_cons, Bool.or_eq_true]
      exact Or.inr (ih h)

theorem lookup_dictSetdefault_present {p : Params} {k v : String} (w : String)
    (h : List.lookup k p = some v) :
    List.lookup k (dictSetdefault p k w) = some v := by
  unfold dictSetdefault
  rw [any_of_lookup h]
  simpa using h

theorem lookup_map_update {p : Params} (k w : String)
    (hmem : p.any (fun kv => kv.1 = k) = true) :
    List.lookup k (p.map (fun kv => if kv.1 = k then (k, w) else kv)) = some w := by
  induction p with
  | nil => simp at hmem
  | cons a rest ih =>
    rcases a with ⟨ak, av⟩
    by_cases hk : ak = k
    · subst hk
      simp only [List.map_cons, if_pos rfl]
      rw [List.lookup]
      simp
    · simp only [List.any_cons, Bool.or_eq_true] at hmem
      rcases hmem with hbad | hmem
    
      · exact absurd (by simpa using hbad) hk
      · simp only [List.map_cons, if_neg hk]
        rw [List.lookup]
        rw [show ((k == ak) = false) from by simp [Ne.symm hk]]
        exact ih hmem

theorem lookup_append_self {p : Params} (k w : String)
    (hmem : p.any (fun kv => kv.1 = k) = false) :
    List.lookup k (p ++ [(k, w)]) = some w := by
  induction p with
  | nil => simp [List.lookup]
  | cons a rest ih =>
    rcases a with ⟨ak, av⟩
    simp only [List.any_cons, Bool.or_eq_false_iff] at hmem
    rcases hmem with ⟨hbad, hmem⟩
    rw [List.cons_append, List.lookup]
    rw [show ((k == ak) = false) from by
      simp only [beq_eq_false_iff_ne, ne_eq]
      intro hkk
      subst hkk
      simp at hbad]
    exact ih hmem

theorem lookup_dictUpdate_self (p : Params) (k w : String) :
    List.lookup k (dictUpdate p k w) = some w := by
  unfold dictUpdate
  by_cases hmem : p.any (fun kv => kv.1 = k) = true
  · rw [if_pos hmem]
    exact lookup_map_update k w hmem
  · simp only [Bool.not_eq_true] at hmem
    rw [if_neg (by simp [hmem])]
    exact lookup_append_self k w hmem

theorem lookup_dictSetdefault_absent {p : Params} (k w : String)
    (hmem : p.any (fun kv => kv.1 = k) = false) :
    List.lookup k (dictSetdefault p k w) = some w := by
  unfold dictSetdefault
  rw [if_neg (by simp [hmem])]
  exact lookup_append_self k w hmem

/-- C6 counterexample: the claim says the crumb is injected without
overwriting a caller-supplied "crumb" parameter on every attempt,
including the reauth reissue; but on the reauth reissue the source passes
`{"crumb": self._crumb}` through `p.update`, which replaces the
caller-supplied value: with caller parameter `crumb=CALLER` and a 403
upstream, the reissued request carries the fresh crumb instead. -/
theorem c6_reauth_overwrites_caller_crumb :
    (_request {} env403Once true [("crumb", "CALLER")] (some "H") stWarm).2.trace =
      [Event.dataReq [("crumb", "CALLER")] "H",
       Event.reauth true, Event.cookieReq, Event.crumbReq "A1=fresha1",
       Event.dataReq [("crumb", "freshcrumb")] "A1=fresha1"]
    ∧ ("freshcrumb" : String) ≠ "CALLER" :=
  ⟨rfl, by decide⟩

/-- C6 (amended): with `need_crumb`, the executor ensures a crumb is
present and injects it via `setdefault`, which never overwrites a
caller-supplied "crumb" parameter, on the first attempt and on every
backoff reissue; but on the one-time reauth reissue the fresh crumb is
passed as a `p.update` override and does replace a caller-supplied
"crumb" value.  The operational clause runs a 403-then-429-then-200
upstream: the three data requests carry, in order, the caller value, the
fresh crumb (overwritten), and the caller value again; the lookup clauses
state the preservation/overwrite facts for the parameter sets used on
each attempt, and the last clause shows the injected value when the
caller supplied no "crumb" parameter. -/
theorem c6_crumb_injection_amended (cfg : Config) (env : Env) (p : Params) (h : String)
    (s : St) (r0 v : String)
    (hM : 0 < cfg.max_retries)
    (hr : s.cli._crumb = some r0) (hr0 : r0 ≠ "")
    (hnd : s.nData = 0)
    (hpv : List.lookup "crumb" p = some v)
    (hAF : isAuthFailure (env.dataResp 0) = true)
    (hA1 : truthyOpt (bootA1 env s.nCookie) = true)
    (hcst : raiseForStatusFails (env.crumbResp s.nCrumb).status = false)
    (hctr : pyStrip (env.crumbResp s.nCrumb).text ≠ "")
    (hT1 : isTransient (env.dataResp 1).status = true)
    (hs2 : (env.dataResp 2).status = 200) :
    (_request cfg env true p (some h) s =
      (.ok (env.dataResp 2),
       { s with cli := { sessionGen := s.cli.sessionGen + 1,
                         _cookie := some ("A1=" ++ (bootA1 env s.nCookie).getD ""),
                         _crumb := some (pyStrip (env.crumbResp s.nCrumb).text) },
                nCookie := s.nCookie + 1, nCrumb := s.nCrumb + 1, nData := 3,
                trace := s.trace ++ [Event.dataReq (dictSetdefault p "crumb" r0) h,
                          Event.reauth true, Event.cookieReq,
                          Event.crumbReq ("A1=" ++ (bootA1 env s.nCookie).getD ""),
                          Event.dataReq
                            (dictSetdefault
                              (dictUpdate p "crumb" (pyStrip (env.crumbResp s.nCrumb).text))
                              "crumb" (pyStrip (env.crumbResp s.nCrumb).text))
                            ("A1=" ++ (bootA1 env s.nCookie).getD ""),
                          Event.sleep 0,
                          Event.dataReq
                            (dictSetdefault p "crumb" (pyStrip (env.crumbResp s.nCrumb).text))
                            ("A1=" ++ (bootA1 env s.nCookie).getD "")] }))
    ∧ List.lookup "crumb" (dictSetdefault p "crumb" r0) = some v
    ∧ List.lookup "crumb"
        (dictSetdefault (dictUpdate p "crumb" (pyStrip (env.crumbResp s.nCrumb).text))
          "crumb" (pyStrip (env.crumbResp s.nCrumb).text))
        = some (pyStrip (env.crumbResp s.nCrumb).text)
    ∧ List.lookup "crumb" (dictSetdefault p "crumb" (pyStrip (env.crumbResp s.nCrumb).text))
        = some v
    ∧ (∀ q : Params, q.any (fun kv => kv.1 = "crumb") = false →
        List.lookup "crumb" (dictSetdefault q "crumb" r0) = some r0) := by
  refine ⟨?_, lookup_dictSetdefault_present _ hpv,
          lookup_dictSetdefault_present _ (lookup_dictUpdate_self _ _ _),
          lookup_dictSetdefault_present _ hpv,
          fun q hq => lookup_dictSetdefault_absent _ _ hq⟩
  unfold _request
  dsimp only
  rw [do_warm env h p s r0 hr hr0]
  dsimp only
  rw [hnd]
  unfold requestAfterFirst
  rw [hAF]
  simp only [if_true, ite_true]
  rw [reauth_ok env
    { s with nData := 0 + 1,
             trace := s.trace ++ [Event.dataReq (dictSetdefault p "crumb" r0) h] }
    (by simpa using hA1) (by simpa using hcst) (by simpa using hctr)]
  dsimp only
  rw [show _default_headers env
    { cli := { sessionGen := s.cli.sessionGen + 1,
               _cookie := some ("A1=" ++ (bootA1 env s.nCookie).getD ""),
               _crumb := some (pyStrip (env.crumbResp s.nCrumb).text) },
      nCookie := s.nCookie + 1, nCrumb := s.nCrumb + 1, nData := 0 + 1,
      trace := s.trace ++ [Event.dataReq (dictSetdefault p "crumb" r0) h] ++
        [Event.reauth true, Event.cookieReq,
         Event.crumbReq ("A1=" ++ (bootA1 env s.nCookie).getD "")] }
    = (.ok ("A1=" ++ (bootA1 env s.nCookie).getD ""),
       { cli := { sessionGen := s.cli.sessionGen + 1,
                  _cookie := some ("A1=" ++ (bootA1 env s.nCookie).getD ""),
                  _crumb := some (pyStrip (env.crumbResp s.nCrumb).text) },
         nCookie := s.nCookie + 1, nCrumb := s.nCrumb + 1, nData := 0 + 1,
         trace := s.trace ++ [Event.dataReq (dictSetdefault p "crumb" r0) h] ++
           [Event.reauth true, Event.cookieReq,
            Event.crumbReq ("A1=" ++ (bootA1 env s.nCookie).getD "")] })
    from ensure_cookie_cached env _ _ rfl (A1_ne_empty _)]
  dsimp only
  unfold _do
  simp only [List.foldl]
  rw [ensure_crumb_cached env
    { cli := { sessionGen := s.cli.sessionGen + 1,
               _cookie := some ("A1=" ++ (bootA1 env s.nCookie).getD ""),
               _crumb := some (pyStrip (env.crumbResp s.nCrumb).text) },
      nCookie := s.nCookie + 1, nCrumb := s.nCrumb + 1, nData := 0 + 1,
      trace := s.trace ++ [Event.dataReq (dictSetdefault p "crumb" r0) h] ++
        [Event.reauth true, Event.cookieReq,
         Event.crumbReq ("A1=" ++ (bootA1 env s.nCookie).getD "")] }
    (pyStrip (env.crumbResp s.nCrumb).text) rfl hctr]
  dsimp only
  simp only [if_true, Option.getD_some, Nat.zero_add]
  unfold finishRequest
  obtain ⟨M', hMr⟩ : ∃ M', cfg.max_retries = M' + 1 := ⟨cfg.max_retries - 1, by omega⟩
  rw [hMr]
  simp only [retryLoop]
  rw [hT1]
  simp only [if_true, ite_true, _sleep_backoff_ev]
  rw [do_warm env ("A1=" ++ (bootA1 env s.nCookie).getD "") p
    { cli := { sessionGen := s.cli.sessionGen + 1,
               _cookie := some ("A1=" ++ (bootA1 env s.nCookie).getD ""),
               _crumb := some (pyStrip (env.crumbResp s.nCrumb).text) },
      nCookie := s.nCookie + 1, nCrumb := s.nCrumb + 1, nData := 1 + 1,
      trace := s.trace ++ [Event.dataReq (dictSetdefault p "crumb" r0) h] ++
        [Event.reauth true, Event.cookieReq,
         Event.crumbReq ("A1=" ++ (bootA1 env s.nCookie).getD "")] ++
        [Event.dataReq
          (dictSetdefault (dictUpdate p "crumb" (pyStrip (env.crumbResp s.nCrumb).text))
            "crumb" (pyStrip (env.crumbResp s.nCrumb).text))
          ("A1=" ++ (bootA1 env s.nCookie).getD "")] ++
        [Event.sleep 0] }
    (pyStrip (env.crumbResp s.nCrumb).text) rfl hctr]
  dsimp only
  rw [retryLoop_not_transient env ("A1=" ++ (bootA1 env s.nCookie).getD "") true p
    (env.dataResp (1 + 1)) (by simp [isTransient, hs2]) M' 1 _]
  dsimp only
  rw [show (1 : ℕ) + 1 = 2 from rfl, hs2]
  simp [raiseForStatusFails, List.append_assoc]

/-- C6 witness: concrete 403-429-200 upstream with caller parameter
`crumb=CALLER`: the first and backoff reissue parameter sets keep
`CALLER`, the reauth reissue carries the fresh crumb. -/
theorem c6_crumb_injection_amended_witness :
    List.lookup "crumb" (dictSetdefault [("crumb", "CALLER")] "crumb" "oldcrumb") = some "CALLER"
    ∧ List.lookup "crumb"
        (dictSetdefault
          (dictUpdate [("crumb", "CALLER")] "crumb"
            (pyStrip (env403Then429.crumbResp stWarm.nCrumb).text))
          "crumb" (pyStrip (env403Then429.crumbResp stWarm.nCrumb).text))
        = some (pyStrip (env403Then429.crumbResp stWarm.nCrumb).text)
    ∧ List.lookup "crumb"
        (dictSetdefault [("crumb", "CALLER")] "crumb"
          (pyStrip (env403Then429.crumbResp stWarm.nCrumb).text))
        = some "CALLER" := by
  have t := c6_crumb_injection_amended {} env403Then429 [("crumb", "CALLER")] "H" stWarm
    "oldcrumb" "CALLER" (by decide) rfl (by decide) rfl rfl rfl (by decide) (by decide)
    (by decide) rfl rfl
  exact ⟨t.2.1, t.2.2.1, t.2.2.2.1⟩

/-- C8: with warm credentials and a 200 data response, `get_historic_esg`
(a) fails with the DataError (`RuntimeError("No ESG history found ...")`)
— not a KeyError/TypeError parse error and not an empty success — exactly
when the nested `esgChart.result[0].symbolSeries` value is absent from
the body; (b) returns the decoded rows when the series is present and
decodes; and (c) each fully-keyed series entry decodes to a date-indexed
record carrying the four renamed score columns
(`esgScore → Total-Score`, `environmentScore → E-Score`,
`socialScore → S-Score`, `governanceScore → G-Score`). -/
theorem c8_historic_data_error (cfg : Config) (env : Env) (ticker : String) (s : St)
    (c0 r0 : String)
    (hc : s.cli._cookie = some c0) (hc0 : c0 ≠ "")
    (hr : s.cli._crumb = some r0) (hr0 : r0 ≠ "")
    (hnd : s.nData = 0)
    (hok : (env.dataResp 0).status = 200) :
    (extractSymbolSeries (env.dataResp 0).jsonBody = none →
      get_historic_esg cfg env ticker s =
        (.error (.dataError ("No ESG history found for ticker " ++ ticker)),
         { s with nData := 0 + 1,
                  trace := s.trace
                    ++ [Event.dataReq (dictSetdefault [("symbol", ticker)] "crumb" r0) c0] }))
    ∧ (∀ series rows, extractSymbolSeries (env.dataResp 0).jsonBody = some series →
        decodeSeries series = .ok rows →
        get_historic_esg cfg env ticker s =
          (.ok rows,
           { s with nData := 0 + 1,
                    trace := s.trace
                      ++ [Event.dataReq (dictSetdefault [("symbol", ticker)] "crumb" r0) c0] }))
    ∧ (∀ (kvs : List (String × Json)) (ts t e so go : Json),
        jLookup kvs "timestamp" = some ts → jLookup kvs "esgScore" = some t →
        jLookup kvs "environmentScore" = some e → jLookup kvs "socialScore" = some so →
        jLookup kvs "governanceScore" = some go →
        decodeSeriesEntry (.obj kvs)
          = .ok { date := ts, totalScore := t, eScore := e, sScore := so, gScore := go }) := by
  have hrun : get_historic_esg cfg env ticker s =
      (get_historic_payload ticker (env.dataResp 0).jsonBody,
       { s with nData := 0 + 1,
                trace := s.trace
                  ++ [Event.dataReq (dictSetdefault [("symbol", ticker)] "crumb" r0) c0] }) := by
    unfold get_historic_esg
    rw [show _default_headers env s = (.ok c0, s) from ensure_cookie_cached env s c0 hc hc0]
    dsimp only
    unfold _request
    dsimp only
    rw [do_warm env c0 [("symbol", ticker)] s r0 hr hr0]
    dsimp only
    rw [hnd]
    unfold requestAfterFirst
    rw [show isAuthFailure (env.dataResp 0) = false from by simp [isAuthFailure, hok]]
    simp only [Bool.false_eq_true, if_false]
    unfold finishRequest
    rw [retryLoop_not_transient env c0 true [("symbol", ticker)] (env.dataResp 0)
      (by simp [isTransient, hok]) cfg.max_retries 0 _]
    dsimp only
    rw [show raiseForStatusFails (env.dataResp 0).status = false from by
      simp [raiseForStatusFails, hok]]
    simp only [Bool.false_eq_true, if_false]
  refine ⟨?_, ?_, ?_⟩
  · intro hnone
    rw [hrun]
    unfold get_historic_payload
    rw [hnone]

  · intro series rows hsome hdec
    rw [hrun]
    unfold get_historic_payload
    rw [hsome]
    dsimp only
    rw [hdec]
  · intro kvs ts t e so go h1 h2 h3 h4 h5
    simp [decodeSeriesEntry, h1, h2, h3, h4, h5]

/-- C8 witness: against a body lacking the series the call yields the
DataError; against a well-formed body it yields the decoded date-indexed
rows. -/
theorem c8_historic_data_error_witness :
    (get_historic_esg {} envHistMissing "AAPL" stWarm =
      (.error (.dataError ("No ESG history found for ticker " ++ "AAPL")),
       { stWarm with nData := 0 + 1,
                     trace := stWarm.trace
                       ++ [Event.dataReq (dictSetdefault [("symbol", "AAPL")] "crumb" "oldcrumb") "A1=olda1"] }))
    ∧ (get_historic_esg {} envHistOK "AAPL" stWarm =
      (.ok histRows,
       { stWarm with nData := 0 + 1,
                     trace := stWarm.trace
                       ++ [Event.dataReq (dictSetdefault [("symbol", "AAPL")] "crumb" "oldcrumb") "A1=olda1"] })) :=
  ⟨(c8_historic_data_error {} envHistMissing "AAPL" stWarm "A1=olda1" "oldcrumb"
      rfl (by decide) rfl (by decide) rfl rfl).1 rfl,
   (c8_historic_data_error {} envHistOK "AAPL" stWarm "A1=olda1" "oldcrumb"
      rfl (by decide) rfl (by decide) rfl rfl).2.1 histSeriesJson histRows rfl rfl⟩

/-- `get_historic_esg` under warm credentials and a 200 response: one
data request with the cached crumb injected, then the payload handling —
at an arbitrary request counter position. -/
theorem get_historic_warm (cfg : Config) (env : Env) (ticker : String) (s : St)
    (c0 r0 : String)
    (hc : s.cli._cookie = some c0) (hc0 : c0 ≠ "")
    (hr : s.cli._crumb = some r0) (hr0 : r0 ≠ "")
    (hok0 : (env.dataResp s.nData).status = 200) :
    get_historic_esg cfg env ticker s =
      (get_historic_payload ticker (env.dataResp s.nData).jsonBody,
       { s with nData := s.nData + 1,
                trace := s.trace
                  ++ [Event.dataReq (dictSetdefault [("symbol", ticker)] "crumb" r0) c0] }) := by
  unfold get_historic_esg
  rw [show _default_headers env s = (.ok c0, s) from ensure_cookie_cached env s c0 hc hc0]
  dsimp only
  unfold _request
  dsimp only
  rw [do_warm env c0 [("symbol", ticker)] s r0 hr hr0]
  dsimp only
  unfold requestAfterFirst
  rw [show isAuthFailure (env.dataResp s.nData) = false from by simp [isAuthFailure, hok0]]
  simp only [Bool.false_eq_true, if_false]
  unfold finishRequest
  rw [retryLoop_not_transient env c0 true [("symbol", ticker)] (env.dataResp s.nData)
    (by simp [isTransient, hok0]) cfg.max_retries 0 _]
  dsimp only
  rw [show raiseForStatusFails (env.dataResp s.nData).status = false from by
    simp [raiseForStatusFails, hok0]]
  simp only [Bool.false_eq_true, if_false]


/-- C10: the module-level functions of `yesg/__init__.py` delegate to the
single module-global `YahooESGClient()` (default configuration): each
module function equals the corresponding client method applied to the
shared client state.  Consequently all module-level calls in a process
share one credential cache and transport: starting from the import-time
state, the first module call acquires the cookie and crumb once (one
`cookieReq`, one `crumbReq`), and a second module call continuing from
the returned shared state issues only its data request — the cached
credentials and the transport generation are reused unchanged. -/
theorem c10_module_shared_client (env : Env) (t1 t2 : String)
    (hA1 : truthyOpt (bootA1 env 0) = true)
    (hcst : raiseForStatusFails (env.crumbResp 0).status = false)
    (hctr : pyStrip (env.crumbResp 0).text ≠ "")
    (hok : ∀ n, (env.dataResp n).status = 200) :
    (∀ t s, Yesg.get_esg_short env t s = get_esg_short Yesg._client_config env t s)
    ∧ (∀ t s, Yesg.get_esg_full env t s = get_esg_full Yesg._client_config env t s)
    ∧ (∀ t s, Yesg.get_historic_esg env t s = get_historic_esg Yesg._client_config env t s)
    ∧ (Yesg.get_historic_esg env t1 Yesg.moduleInit =
        (get_historic_payload t1 (env.dataResp 0).jsonBody,
         { cli := { sessionGen := 0,
                    _cookie := some ("A1=" ++ (bootA1 env 0).getD ""),
                    _crumb := some (pyStrip (env.crumbResp 0).text) },
           nCookie := 1, nCrumb := 1, nData := 1,
           trace := [Event.cookieReq,
                     Event.crumbReq ("A1=" ++ (bootA1 env 0).getD ""),
                     Event.dataReq
                       (dictSetdefault [("symbol", t1)] "crumb" (pyStrip (env.crumbResp 0).text))
                       ("A1=" ++ (bootA1 env 0).getD "")] }))
    ∧ (Yesg.get_historic_esg env t2
        { cli := { sessionGen := 0,
                   _cookie := some ("A1=" ++ (bootA1 env 0).getD ""),
                   _crumb := some (pyStrip (env.crumbResp 0).text) },
          nCookie := 1, nCrumb := 1, nData := 1,
          trace := [Event.cookieReq,
                    Event.crumbReq ("A1=" ++ (bootA1 env 0).getD ""),
                    Event.dataReq
                      (dictSetdefault [("symbol", t1)] "crumb" (pyStrip (env.crumbResp 0).text))
                      ("A1=" ++ (bootA1 env 0).getD "")] } =
        (get_historic_payload t2 (env.dataResp 1).jsonBody,
         { cli := { sessionGen := 0,
                    _cookie := some ("A1=" ++ (bootA1 env 0).getD ""),
                    _crumb := some (pyStrip (env.crumbResp 0).text) },
           nCookie := 1, nCrumb := 1, nData := 2,
           trace := [Event.cookieReq,
                     Event.crumbReq ("A1=" ++ (bootA1 env 0).getD ""),
                     Event.dataReq
                       (dictSetdefault [("symbol", t1)] "crumb" (pyStrip (env.crumbResp 0).text))
                       ("A1=" ++ (bootA1 env 0).getD ""),
                     Event.dataReq
                       (dictSetdefault [("symbol", t2)] "crumb" (pyStrip (env.crumbResp 0).text))
                       ("A1=" ++ (bootA1 env 0).getD "")] })) := by
  refine ⟨fun t s => rfl, fun t s => rfl, fun t s => rfl, ?_, ?_⟩
  · unfold Yesg.get_historic_esg clientGetHistoricEsg
    unfold get_historic_esg
    rw [show _default_headers env Yesg.moduleInit
        = (.ok ("A1=" ++ (bootA1 env 0).getD ""),
           { cli := { sessionGen := 0, _cookie := some ("A1=" ++ (bootA1 env 0).getD ""),
                      _crumb := none },
             nCookie := 1, nCrumb := 0, nData := 0, trace := [Event.cookieReq] })
      from ensure_cookie_fetch_ok env Yesg.moduleInit rfl (by simpa using hA1)]
    dsimp only
    unfold _request
    dsimp only
    unfold _do
    simp only [if_true, ite_true]
    rw [ensure_crumb_fetch_ok env
      { cli := { sessionGen := 0, _cookie := some ("A1=" ++ (bootA1 env 0).getD ""),
                 _crumb := none },
        nCookie := 1, nCrumb := 0, nData := 0, trace := [Event.cookieReq] }
      ("A1=" ++ (bootA1 env 0).getD "")
      rfl rfl (A1_ne_empty _) (by simpa using hcst) (by simpa using hctr)]
    dsimp only
    simp only [Option.getD_some]
    unfold requestAfterFirst
    rw [show isAuthFailure (env.dataResp 0) = false from by simp [isAuthFailure, hok 0]]
    simp only [Bool.false_eq_true, if_false]
    unfold finishRequest
    rw [retryLoop_not_transient env ("A1=" ++ (bootA1 env 0).getD "") true [("symbol", t1)]
      (env.dataResp 0) (by simp [isTransient, hok 0]) Yesg._client_config.max_retries 0 _]
    dsimp only
    rw [show raiseForStatusFails (env.dataResp 0).status = false from by
      simp [raiseForStatusFails, hok 0]]
    simp only [Bool.false_eq_true, if_false]
    rfl
  · rw [show Yesg.get_historic_esg env t2 _ = get_historic_esg Yesg._client_config env t2 _ from rfl]
    rw [get_historic_warm Yesg._client_config env t2 _
      ("A1=" ++ (bootA1 env 0).getD "") (pyStrip (env.crumbResp 0).text)
      rfl (A1_ne_empty _) rfl hctr (by simpa using hok 1)]
    rfl

/-- C10 witness: two successive module-level `get_historic_esg` calls
against the fixture environment: the first acquires both credentials,
the second (run from the state the first returned) issues only a data
request, reusing the shared cache. -/
theorem c10_module_shared_client_witness :
    (Yesg.get_historic_esg envHistOK "IBM" Yesg.moduleInit =
        (get_historic_payload "IBM" (envHistOK.dataResp 0).jsonBody,
         { cli := { sessionGen := 0,
                    _cookie := some ("A1=" ++ (bootA1 envHistOK 0).getD ""),
                    _crumb := some (pyStrip (envHistOK.crumbResp 0).text) },
           nCookie := 1, nCrumb := 1, nData := 1,
           trace := [Event.cookieReq,
                     Event.crumbReq ("A1=" ++ (bootA1 envHistOK 0).getD ""),
                     Event.dataReq
                       (dictSetdefault [("symbol", "IBM")] "crumb" (pyStrip (envHistOK.crumbResp 0).text))
                       ("A1=" ++ (bootA1 envHistOK 0).getD "")] }))
    ∧ (Yesg.get_historic_esg envHistOK "MSFT"
        { cli := { sessionGen := 0,
                   _cookie := some ("A1=" ++ (bootA1 envHistOK 0).getD ""),
                   _crumb := some (pyStrip (envHistOK.crumbResp 0).text) },
          nCookie := 1, nCrumb := 1, nData := 1,
          trace := [Event.cookieReq,
                    Event.crumbReq ("A1=" ++ (bootA1 envHistOK 0).getD ""),
                    Event.dataReq
                      (dictSetdefault [("symbol", "IBM")] "crumb" (pyStrip (envHistOK.crumbResp 0).text))
                      ("A1=" ++ (bootA1 envHistOK 0).getD "")] } =
        (get_historic_payload "MSFT" (envHistOK.dataResp 1).jsonBody,
         { cli := { sessionGen := 0,
                    _cookie := some ("A1=" ++ (bootA1 envHistOK 0).getD ""),
                    _crumb := some (pyStrip (envHistOK.crumbResp 0).text) },
           nCookie := 1, nCrumb := 1, nData := 2,
           trace := [Event.cookieReq,
                     Event.crumbReq ("A1=" ++ (bootA1 envHistOK 0).getD ""),
                     Event.dataReq
                       (dictSetdefault [("symbol", "IBM")] "crumb" (pyStrip (envHistOK.crumbResp 0).text))
                       ("A1=" ++ (bootA1 envHistOK 0).getD ""),
                     Event.dataReq
                       (dictSetdefault [("symbol", "MSFT")] "crumb" (pyStrip (envHistOK.crumbResp 0).text))
                       ("A1=" ++ (bootA1 envHistOK 0).getD "")] })) := by
  have t := c10_module_shared_client envHistOK "IBM" "MSFT"
    (by decide) (by decide) (by decide) (fun n => rfl)
  exact ⟨t.2.2.2.1, t.2.2.2.2⟩
